import Mathlib

/-!
# Verification of the `py_gamma_sdk` Polymarket Gamma SDK

A shallow embedding of the repository's core logic:

* `src/py_gamma_sdk/models.py` — the datetime normalizer `parse_flexible_datetime`
  and the pydantic entity models (`Market`, `Tag`, `Event`, `PublicSearchMarket`,
  `PublicSearchEvent`, `PublicSearchResponse`).
* `src/py_gamma_sdk/client.py` — the request/error pipeline (`GammaClient._request`),
  the pagination aggregator (`GammaClient.public_search_all`), URL resolution
  (`GammaClient.resolve_url` / `_extract_slug_from_url`), and market
  lookup-by-slug (`MarketsClient.get_by_slug`).

Python strings are embedded as `List Char`; Python dicts (keyword-argument
mappings and decoded JSON objects) as association lists `List (String × PyVal)`
with first-match lookup and shadowing insertion; fallible Python code as
`Except`.
-/

namespace PyGammaSdk

/-! ## Python string primitives (embedded over `List Char`) -/

/-- Membership test on a Python string, `c in s`. -/
def pyContainsChar (c : Char) (l : List Char) : Bool := decide (c ∈ l)

/-- Python `s.replace(a, b, 1)` for one-character `a`, `b`: replace the first
occurrence only. -/
def replaceFirstChar (a b : Char) : List Char → List Char
  | [] => []
  | x :: xs => if x = a then b :: xs else x :: replaceFirstChar a b xs

/-- Python `s.endswith(suf)`. -/
def pyEndsWith (suf l : List Char) : Bool :=
  decide (l.drop (l.length - suf.length) = suf)

/-- Python `s.strip(c)` for a one-character strip set: remove every leading and
every trailing occurrence of `c`. -/
def pyStripChar (c : Char) (l : List Char) : List Char :=
  ((l.dropWhile (· = c)).reverse.dropWhile (· = c)).reverse

/-- Python `s.split(c)` for a one-character separator: every occurrence of the
separator splits, empty segments are kept, and the empty string yields `[""]`. -/
def pySplitChar (c : Char) : List Char → List (List Char)
  | [] => [[]]
  | x :: xs =>
    match pySplitChar c xs with
    | [] => [[]]
    | y :: ys => if x = c then [] :: y :: ys else (x :: y) :: ys

/-! ## `parse_flexible_datetime` (models.py lines 6–17) -/

/-- The string-repair core of `parse_flexible_datetime` (models.py lines 10–16):
first, if the string contains a space and no `'T'`, the first space is replaced
by `'T'`; then, if the (possibly rewritten) string ends with `"+00"` or
`"-00"`, `":00"` is appended. -/
def parseFlexCore (l : List Char) : List Char :=
  let l1 := if pyContainsChar ' ' l && !(pyContainsChar 'T' l) then
    replaceFirstChar ' ' 'T' l else l
  if pyEndsWith "+00".toList l1 || pyEndsWith "-00".toList l1 then
    l1 ++ ":00".toList else l1

section StringLemmas

/-- A list containing an explicit occurrence of `c` contains `c`. -/
theorem pyContainsChar_append_self (c : Char) (d r : List Char) :
    pyContainsChar c (d ++ c :: r) = true := by
  simp [pyContainsChar]

/-- A list whose parts avoid `c` does not contain `c`. -/
theorem pyContainsChar_eq_false {c : Char} {l : List Char} (h : c ∉ l) :
    pyContainsChar c l = false := by
  simp [pyContainsChar, h]

/-- `replaceFirstChar` rewrites exactly the first occurrence. -/
theorem replaceFirstChar_append {a b : Char} {d : List Char} (h : a ∉ d)
    (r : List Char) : replaceFirstChar a b (d ++ a :: r) = d ++ b :: r := by
  induction d with
  | nil => simp [replaceFirstChar]
  | cons x xs ih =>
    simp only [List.mem_cons, not_or] at h
    have hx : x ≠ a := fun e => h.1 e.symm
    simp [replaceFirstChar, hx, ih h.2]

/-- `pyEndsWith` holds on an explicit suffix. -/
theorem pyEndsWith_append (suf l : List Char) :
    pyEndsWith suf (l ++ suf) = true := by
  simp [pyEndsWith]

/-- `pyEndsWith` for suffixes of the length of an explicit suffix is decided by
that suffix. -/
theorem pyEndsWith_append_of_length {suf t : List Char} (h : suf.length = t.length)
    (l : List Char) : pyEndsWith suf (l ++ t) = decide (t = suf) := by
  simp [pyEndsWith, h]

end StringLemmas

/-! ## Python values and dicts

`PyVal` embeds the loosely-typed values flowing through the SDK: decoded JSON
and Python keyword arguments.  Numbers carry an exact decimal representation
(`dec m e` stands for `m * 10 ^ (-e)`); the code never computes on them.
`datetime` is an opaque already-parsed timestamp (the code only passes such
values through). -/

inductive PyVal where
  | null
  | str (s : String)
  | int (n : Int)
  | dec (m : Int) (e : Nat)
  | bool (b : Bool)
  | datetime (rep : Int)
  | list (xs : List PyVal)
  | obj (fields : List (String × PyVal))

/-- A Python dict with string keys: association list with first-match lookup
and shadowing insertion (`dset` models `d[k] = v`; keys of real Python dicts
are unique, so shadowing is equivalent to replacement for lookups). -/
abbrev PDict := List (String × PyVal)

/-- Dict lookup, `d.get(k)` / `d[k]` when present. -/
def dget (d : PDict) (k : String) : Option PyVal :=
  (d.find? (fun p => p.1 == k)).map Prod.snd

/-- Dict update `d[k] = v`. -/
def dset (d : PDict) (k : String) (v : PyVal) : PDict := (k, v) :: d

/-- Python `d.get(k, default)`. -/
def dgetD (d : PDict) (k : String) (default : PyVal) : PyVal :=
  (dget d k).getD default

/-- Python `for k, v in src.items(): d[k] = v` applied to dict `d`. -/
def mergeInto (d : PDict) (src : PDict) : PDict :=
  src.foldl (fun acc kv => dset acc kv.1 kv.2) d

theorem dget_dset_self (d : PDict) (k : String) (v : PyVal) :
    dget (dset d k v) k = some v := by
  simp [dget, dset, List.find?_cons_of_pos]

theorem dget_dset_ne (d : PDict) (k k' : String) (v : PyVal) (h : k' ≠ k) :
    dget (dset d k v) k' = dget d k' := by
  have hp : ¬ (((k, v) : String × PyVal).1 == k') = true := by
    intro e
    have he : k = k' := by simpa using e
    exact h he.symm
  simp [dget, dset, List.find?_cons_of_neg, hp]

theorem dget_eq_none_of_not_mem_keys {ps : PDict} {k : String}
    (h : k ∉ ps.map Prod.fst) : dget ps k = none := by
  induction ps with
  | nil => rfl
  | cons p tl ih =>
    simp only [List.map_cons, List.mem_cons, not_or] at h
    have hp : ¬ (p.1 == k) = true := by
      intro e
      have he : p.1 = k := by simpa using e
      exact h.1 he.symm
    have htl := ih h.2
    simpa [dget, List.find?_cons_of_neg, hp] using htl

theorem dget_mergeInto_of_none {ps : PDict} {k : String}
    (h : dget ps k = none) (d : PDict) : dget (mergeInto d ps) k = dget d k := by
  induction ps generalizing d with
  | nil => rfl
  | cons p tl ih =>
    obtain ⟨k0, v0⟩ := p
    have hcases : ¬ (k0 == k) = true ∧ dget tl k = none := by
      by_cases hk : (k0 == k) = true
      · exfalso
        simp [dget, List.find?_cons_of_pos, hk] at h
      · refine ⟨hk, ?_⟩
        simpa [dget, List.find?_cons_of_neg, hk] using h
    have hk' : k ≠ k0 := fun e => hcases.1 (by simp [e])
    show dget (mergeInto (dset d k0 v0) tl) k = dget d k
    calc dget (mergeInto (dset d k0 v0) tl) k
        = dget (dset d k0 v0) k := ih hcases.2 _
      _ = dget d k := dget_dset_ne _ _ _ _ hk'

theorem dget_mergeInto_of_some {ps : PDict} {k : String} {v : PyVal}
    (hnd : (ps.map Prod.fst).Nodup) (h : dget ps k = some v) (d : PDict) :
    dget (mergeInto d ps) k = some v := by
  induction ps generalizing d with
  | nil => simp [dget] at h
  | cons p tl ih =>
    obtain ⟨k0, v0⟩ := p
    simp only [List.map_cons, List.nodup_cons] at hnd
    by_cases hk : (k0 == k) = true
    · have hkk : k0 = k := by simpa using hk
      have hv : some v0 = some v := by
        simpa [dget, List.find?_cons_of_pos, hk] using h
      subst hkk
      have htl : dget tl k0 = none := dget_eq_none_of_not_mem_keys hnd.1
      show dget (mergeInto (dset d k0 v0) tl) k0 = some v
      calc dget (mergeInto (dset d k0 v0) tl) k0
          = dget (dset d k0 v0) k0 := dget_mergeInto_of_none htl _
        _ = some v0 := dget_dset_self _ _ _
        _ = some v := hv
    · have htl : dget tl k = some v := by
        simpa [dget, List.find?_cons_of_neg, hk] using h
      exact ih hnd.2 htl _

/-! ## `parse_flexible_datetime` on Python values (models.py lines 6–17) -/

/-- `parse_flexible_datetime(value)`: `None` and `datetime` instances pass
through, strings are repaired by the two rules of `parseFlexCore`, every other
value passes through unchanged. -/
def parse_flexible_datetime : PyVal → PyVal
  | .null => .null
  | .datetime d => .datetime d
  | .str s => .str ⟨parseFlexCore s.data⟩
  | v => v

section NormalizerTheorems

/-- Reduction of `parseFlexCore` when both rules fire. -/
theorem parseFlexCore_eq_of {l l1 : List Char}
    (h1 : (pyContainsChar ' ' l && !(pyContainsChar 'T' l)) = true)
    (hrep : replaceFirstChar ' ' 'T' l = l1)
    (h2 : (pyEndsWith "+00".toList l1 || pyEndsWith "-00".toList l1) = true) :
    parseFlexCore l = l1 ++ ":00".toList := by
  simp only [parseFlexCore, h1, if_true, hrep, h2]

/-- On a `"<date> <time>±00"`-shaped string both repair rules fire and compose. -/
theorem parseFlexCore_space_short_offset (d t suf : List Char)
    (hd1 : ' ' ∉ d) (hd2 : 'T' ∉ d) (ht1 : ' ' ∉ t) (ht2 : 'T' ∉ t)
    (hsuf : suf = "+00".toList ∨ suf = "-00".toList) :
    parseFlexCore (d ++ " ".toList ++ t ++ suf)
      = d ++ "T".toList ++ t ++ suf ++ ":00".toList := by
  have hshape : d ++ " ".toList ++ t ++ suf = d ++ ' ' :: (t ++ suf) := by simp
  have hTs : 'T' ∉ suf ∧ (pyEndsWith "+00".toList ((d ++ 'T' :: t) ++ suf)
      || pyEndsWith "-00".toList ((d ++ 'T' :: t) ++ suf)) = true := by
    rcases hsuf with h | h <;> subst h
    · refine ⟨by decide, ?_⟩
      rw [pyEndsWith_append]
      rfl
    · refine ⟨by decide, ?_⟩
      have e1 : pyEndsWith "+00".toList ((d ++ 'T' :: t) ++ "-00".toList) = false := by
        rw [pyEndsWith_append_of_length (by decide)]
        decide
      have e2 : pyEndsWith "-00".toList ((d ++ 'T' :: t) ++ "-00".toList) = true :=
        pyEndsWith_append _ _
      rw [e1, e2]
      rfl
  have h1 : (pyContainsChar ' ' (d ++ ' ' :: (t ++ suf))
      && !(pyContainsChar 'T' (d ++ ' ' :: (t ++ suf)))) = true := by
    have hc := pyContainsChar_append_self ' ' d (t ++ suf)
    have hT : pyContainsChar 'T' (d ++ ' ' :: (t ++ suf)) = false := by
      apply pyContainsChar_eq_false
      simp only [List.mem_append, List.mem_cons, not_or]
      exact ⟨hd2, by decide, ht2, hTs.1⟩
    simp [hc, hT]
  have hrep : replaceFirstChar ' ' 'T' (d ++ ' ' :: (t ++ suf))
      = d ++ 'T' :: (t ++ suf) := replaceFirstChar_append hd1 _
  have hassoc : d ++ 'T' :: (t ++ suf) = (d ++ 'T' :: t) ++ suf := by simp
  rw [hshape, parseFlexCore_eq_of h1 (hrep.trans hassoc) hTs.2]
  simp

/-- **C7.** For every string of the form `"YYYY-MM-DD HH:MM:SS+00"` or
`"YYYY-MM-DD HH:MM:SS-00"` (generalized: any date part `d` and time part `t`
containing neither a space nor a literal `'T'`, joined by a single space and
followed by a two-digit offset `+00`/`-00`), the datetime normalizer
`parse_flexible_datetime` replaces the first space with `"T"` and appends
`":00"` to complete the offset — both rules composing on one input — yielding
the corresponding `"YYYY-MM-DDTHH:MM:SS±00:00"` ISO form. -/
theorem parse_flexible_datetime_space_short_offset_iso (d t : List Char)
    (hd1 : ' ' ∉ d) (hd2 : 'T' ∉ d) (ht1 : ' ' ∉ t) (ht2 : 'T' ∉ t) :
    parse_flexible_datetime (.str ⟨d ++ " ".toList ++ t ++ "+00".toList⟩)
        = .str ⟨d ++ "T".toList ++ t ++ "+00:00".toList⟩ ∧
    parse_flexible_datetime (.str ⟨d ++ " ".toList ++ t ++ "-00".toList⟩)
        = .str ⟨d ++ "T".toList ++ t ++ "-00:00".toList⟩ := by
  refine ⟨?_, ?_⟩
  · have h := parseFlexCore_space_short_offset d t "+00".toList hd1 hd2 ht1 ht2 (Or.inl rfl)
    have hl : "+00".toList ++ ":00".toList = "+00:00".toList := by decide
    show PyVal.str ⟨parseFlexCore (d ++ " ".toList ++ t ++ "+00".toList)⟩
        = PyVal.str ⟨d ++ "T".toList ++ t ++ "+00:00".toList⟩
    rw [h, List.append_assoc (d ++ "T".toList ++ t), hl]
  · have h := parseFlexCore_space_short_offset d t "-00".toList hd1 hd2 ht1 ht2 (Or.inr rfl)
    have hl : "-00".toList ++ ":00".toList = "-00:00".toList := by decide
    show PyVal.str ⟨parseFlexCore (d ++ " ".toList ++ t ++ "-00".toList)⟩
        = PyVal.str ⟨d ++ "T".toList ++ t ++ "-00:00".toList⟩
    rw [h, List.append_assoc (d ++ "T".toList ++ t), hl]

/-- Witness for C7, at the spec's own example `"2026-01-30 19:37:52+00"`. -/
theorem parse_flexible_datetime_space_short_offset_iso_witness :
    (' ' ∉ "2026-01-30".toList) ∧ ('T' ∉ "2026-01-30".toList) ∧
    (' ' ∉ "19:37:52".toList) ∧ ('T' ∉ "19:37:52".toList) ∧
    parse_flexible_datetime
        (.str ⟨"2026-01-30".toList ++ " ".toList ++ "19:37:52".toList ++ "+00".toList⟩)
      = .str ⟨"2026-01-30".toList ++ "T".toList ++ "19:37:52".toList ++ "+00:00".toList⟩ :=
  ⟨by decide, by decide, by decide, by decide,
    (parse_flexible_datetime_space_short_offset_iso "2026-01-30".toList "19:37:52".toList
      (by decide) (by decide) (by decide) (by decide)).1⟩

end NormalizerTheorems

/-! ## `GammaClient.public_search_all` (client.py lines 246–272)

The per-page fetch `public_search(query, **api_params)` is abstracted as a
function from the final parameter dict to a typed `PublicSearchResponse`
(the query string `q` is bound inside `public_search` and is the same for
every page, so it is folded into the abstract fetch function).  The
`pagination` wire map is modelled as a record of its two documented keys,
`totalResults` and `hasMore` (spec §3). -/

/-- The `pagination` map of a public-search response. -/
structure Pagination where
  totalResults : Int
  hasMore : Bool

/-- `PublicSearchResponse` (models.py lines 254–257), abstracted over the
event element type: `public_search_all` never inspects individual events. -/
structure PublicSearchResponse (α : Type) where
  events : List α
  pagination : Option Pagination

/-- Exceptions the aggregation loop itself can raise while computing
`totalResults // limit_per_type`. -/
inductive SearchErr where
  | typeError
  | zeroDivisionError

/-- Python `range(a, b)` over integers. -/
def intRange (a b : Int) : List Int :=
  (List.range (b - a).toNat).map (fun i => a + i)

/-- The `api_params` dict of `public_search_all` (client.py lines 249–256):
a literal with defaults `page=1`, `limit_per_type=params.get("limit_per_type", 20)`,
`type=params.get("type", "events")`, `sort=params.get("sort", "volume_24hr")`,
then every caller `params` entry written over it (last wins). -/
def buildApiParams (params : PDict) : PDict :=
  mergeInto
    (dset (dset (dset (dset ([] : PDict) "page" (.int 1))
      "limit_per_type" (dgetD params "limit_per_type" (.int 20)))
      "type" (dgetD params "type" (.str "events")))
      "sort" (dgetD params "sort" (.str "volume_24hr")))
    params

/-- `GammaClient.public_search_all` (client.py lines 246–272): fetch the first
page; if pagination is absent return it; otherwise compute
`page_count = totalResults // limit_per_type + 1` (a `TypeError` if the
caller-supplied `limit_per_type` is not an int, a `ZeroDivisionError` if it is
zero); if `hasMore` is falsy return the first page; otherwise fetch pages
`range(2, page_count)` in order and return only the concatenated events. -/
def public_search_all {α : Type} (public_search : PDict → PublicSearchResponse α)
    (params : PDict) : Except SearchErr (PublicSearchResponse α) :=
  let api := buildApiParams params
  let data := public_search api
  match data.pagination with
  | none => .ok data
  | some pg =>
    match dget api "limit_per_type" with
    | some (.int L) =>
      if L = 0 then .error .zeroDivisionError
      else
        let page_count := pg.totalResults.fdiv L + 1
        if pg.hasMore = false then .ok data
        else
          .ok ⟨data.events ++ ((intRange 2 page_count).map
            (fun p => (public_search (dset api "page" (.int p))).events)).flatten, none⟩
    | some _ => .error .typeError
    | none => .error .typeError

/-- **C1.** `public_search_all` fetches the first page with defaults
`limit_per_type=20`, `type="events"`, `sort="volume_24hr"` (and `page=1`)
overridden last-wins by caller params; if the first page's pagination is
absent or its `hasMore` is false, the first page's response is returned
unmodified; otherwise, with `page_count = totalResults // limit_per_type + 1`,
pages `range(2, page_count)` are fetched in order and the result holds exactly
the concatenation of all fetched pages' events in fetch order, with pagination
dropped.  (Hypotheses: caller params keys are unique as in a Python dict, and
a caller-supplied `limit_per_type` is a nonzero int so the division in the
source does not raise.) -/
theorem public_search_all_paginates (α : Type)
    (public_search : PDict → PublicSearchResponse α) (params : PDict)
    (hnd : (params.map Prod.fst).Nodup)
    (hlim : dget params "limit_per_type" = none ∨
      ∃ n : Int, dget params "limit_per_type" = some (.int n) ∧ n ≠ 0) :
    (∀ k v, dget params k = some v → dget (buildApiParams params) k = some v) ∧
    (dget params "page" = none →
      dget (buildApiParams params) "page" = some (.int 1)) ∧
    (dget params "limit_per_type" = none →
      dget (buildApiParams params) "limit_per_type" = some (.int 20)) ∧
    (dget params "type" = none →
      dget (buildApiParams params) "type" = some (.str "events")) ∧
    (dget params "sort" = none →
      dget (buildApiParams params) "sort" = some (.str "volume_24hr")) ∧
    ((public_search (buildApiParams params)).pagination = none →
      public_search_all public_search params
        = .ok (public_search (buildApiParams params))) ∧
    (∀ pg, (public_search (buildApiParams params)).pagination = some pg →
      pg.hasMore = false →
      public_search_all public_search params
        = .ok (public_search (buildApiParams params))) ∧
    (∀ pg, (public_search (buildApiParams params)).pagination = some pg →
      pg.hasMore = true →
      ∃ L : Int, dget (buildApiParams params) "limit_per_type" = some (.int L) ∧
        L ≠ 0 ∧ (dget params "limit_per_type" = none → L = 20) ∧
        public_search_all public_search params =
          .ok ⟨(public_search (buildApiParams params)).events ++
            ((intRange 2 (pg.totalResults.fdiv L + 1)).map
              (fun p => (public_search
                (dset (buildApiParams params) "page" (.int p))).events)).flatten,
            none⟩) := by
  have hbase : dget (dset (dset (dset (dset ([] : PDict) "page" (.int 1))
      "limit_per_type" (dgetD params "limit_per_type" (.int 20)))
      "type" (dgetD params "type" (.str "events")))
      "sort" (dgetD params "sort" (.str "volume_24hr"))) "limit_per_type"
      = some (dgetD params "limit_per_type" (.int 20)) := by
    rw [dget_dset_ne _ _ _ _ (by decide), dget_dset_ne _ _ _ _ (by decide),
      dget_dset_self]
  obtain ⟨L, hL, hLne, hLdef⟩ : ∃ L : Int,
      dget (buildApiParams params) "limit_per_type" = some (.int L) ∧ L ≠ 0 ∧
      (dget params "limit_per_type" = none → L = 20) := by
    rcases hlim with h | ⟨n, hn, hne⟩
    · refine ⟨20, ?_, by decide, fun _ => rfl⟩
      unfold buildApiParams
      rw [dget_mergeInto_of_none h, hbase]
      simp [dgetD, h]
    · exact ⟨n, dget_mergeInto_of_some hnd hn _, hne,
        fun hc => Option.noConfusion (hc ▸ hn)⟩
  have hdefault : ∀ k dflt, dget params k = none →
      dget (dset (dset (dset (dset ([] : PDict) "page" (.int 1))
        "limit_per_type" (dgetD params "limit_per_type" (.int 20)))
        "type" (dgetD params "type" (.str "events")))
        "sort" (dgetD params "sort" (.str "volume_24hr"))) k = dflt →
      dget (buildApiParams params) k = dflt := by
    intro k dflt hk hb
    unfold buildApiParams
    rw [dget_mergeInto_of_none hk, hb]
  refine ⟨fun k v h => dget_mergeInto_of_some hnd h _,
    fun h => hdefault _ _ h ?_, fun h => hdefault _ _ h ?_,
    fun h => hdefault _ _ h ?_, fun h => hdefault _ _ h ?_, ?_, ?_, ?_⟩
  · rw [dget_dset_ne _ _ _ _ (by decide), dget_dset_ne _ _ _ _ (by decide),
      dget_dset_ne _ _ _ _ (by decide), dget_dset_self]
  · rw [hbase]
    simp [dgetD, h]
  · rw [dget_dset_ne _ _ _ _ (by decide), dget_dset_self]
    simp [dgetD, h]
  · rw [dget_dset_self]
    simp [dgetD, h]
  · intro h
    simp [public_search_all, h]
  · intro pg hpg hmore
    simp [public_search_all, hpg, hL, hLne, hmore]
  · intro pg hpg hmore
    refine ⟨L, hL, hLne, hLdef, ?_⟩
    simp [public_search_all, hpg, hL, hLne, hmore]

/-- A concrete two-page fetch function: 45 total results at 20 per page. -/
def demoPublicSearch : PDict → PublicSearchResponse Nat := fun d =>
  match dget d "page" with
  | some (.int 1) => ⟨[1], some ⟨45, true⟩⟩
  | some (.int 2) => ⟨[2], some ⟨45, true⟩⟩
  | _ => ⟨[9], none⟩

/-- Witness for C1: with no caller params, `page_count = 45 // 20 + 1 = 3`,
only page 2 is additionally fetched (`range(2, 3)`), and the events of pages 1
and 2 are concatenated with pagination dropped. -/
theorem public_search_all_paginates_witness :
    (([] : PDict).map Prod.fst).Nodup ∧
    (demoPublicSearch (buildApiParams [])).pagination = some ⟨45, true⟩ ∧
    public_search_all demoPublicSearch [] = .ok ⟨[1, 2], none⟩ := by
  refine ⟨by simp, rfl, ?_⟩
  obtain ⟨L, hL, hLne, hLdef, hres⟩ :=
    (public_search_all_paginates Nat demoPublicSearch []
      (by simp) (Or.inl rfl)).2.2.2.2.2.2.2 ⟨45, true⟩ rfl rfl
  have h20 : L = 20 := hLdef rfl
  subst h20
  rw [hres]
  rfl

/-! ## Pydantic-style validation

Construction-and-validation of the entity models (models.py).  Validation is
applicative: every field is parsed and all error messages are collected, as
pydantic reports every failing field.  `GammaBaseModel` sets
`populate_by_name=True`, so a field with a wire alias accepts the alias (with
priority) or the field name; unknown keys are ignored (pydantic's default
`extra="ignore"`).  The pydantic base datetime parser is kept abstract as a
parameter `dtp : PyVal → Option Int` (an already-parsed `datetime` is an
opaque `Int`); the models' own pre-validation hooks are explicit. -/

/-- Validation result collecting all field errors. -/
abbrev EV (α : Type) := Except (List String) α

/-- Applicative composition that accumulates error messages from both sides. -/
def EV.seq2 {α β : Type} (f : EV (α → β)) (x : EV α) : EV β :=
  match f, x with
  | .ok g, .ok a => .ok (g a)
  | .ok _, .error e => .error e
  | .error e, .ok _ => .error e
  | .error e, .error e' => .error (e ++ e')

/-- The error messages of a validation result. -/
def EV.errs {α : Type} : EV α → List String
  | .ok _ => []
  | .error e => e

theorem EV.errs_seq2 {α β : Type} (f : EV (α → β)) (x : EV α) :
    (EV.seq2 f x).errs = f.errs ++ x.errs := by
  cases f <;> cases x <;> simp [EV.seq2, EV.errs]

theorem EV.errs_ok {α : Type} (a : α) :
    EV.errs (Except.ok a : EV α) = [] := rfl

theorem EV.errs_error {α : Type} (e : List String) :
    EV.errs (Except.error e : EV α) = e := rfl

theorem EV.eq_error_of_errs_ne {α : Type} {x : EV α} (h : x.errs ≠ []) :
    x = .error x.errs := by
  cases x with
  | ok a => exact absurd rfl h
  | error e => rfl

/-- Field lookup with `populate_by_name=True`: the wire alias takes priority,
then the field name. -/
def fget (d : PDict) (al fname : String) : Option PyVal :=
  match dget d al with
  | some v => some v
  | none => dget d fname

theorem fget_dset_stable {keys : List String} {k : String} (hk : k ∉ keys)
    {al fname : String} (ha : al ∈ keys) (hn : fname ∈ keys)
    (d : PDict) (v : PyVal) :
    fget (dset d k v) al fname = fget d al fname := by
  have h1 : al ≠ k := fun e => hk (e ▸ ha)
  have h2 : fname ≠ k := fun e => hk (e ▸ hn)
  simp only [fget, dget_dset_ne d k al v h1, dget_dset_ne d k fname v h2]

/-- Numbers as stored on models (`float`-typed fields); never computed on. -/
inductive PyNum where
  | int (n : Int)
  | dec (m : Int) (e : Nat)

/-- A `Union[List[str], str]` value. -/
inductive StrOrList where
  | strs (xs : List String)
  | str (s : String)

/-- Required `str` field. -/
def reqStr (f : String) : Option PyVal → EV String
  | some (.str s) => .ok s
  | some _ => .error [f ++ ": string expected"]
  | none => .error [f ++ ": field required"]

/-- `Optional[str] = None` field. -/
def optStr (f : String) : Option PyVal → EV (Option String)
  | none => .ok none
  | some .null => .ok none
  | some (.str s) => .ok (some s)
  | some _ => .error [f ++ ": string expected"]

/-- `Optional[float] = None` field (accepts int or decimal wire numbers). -/
def optFloat (f : String) : Option PyVal → EV (Option PyNum)
  | none => .ok none
  | some .null => .ok none
  | some (.int n) => .ok (some (.int n))
  | some (.dec m e) => .ok (some (.dec m e))
  | some _ => .error [f ++ ": float expected"]

/-- `Optional[int] = None` field. -/
def optInt (f : String) : Option PyVal → EV (Option Int)
  | none => .ok none
  | some .null => .ok none
  | some (.int n) => .ok (some n)
  | some _ => .error [f ++ ": int expected"]

/-- `Optional[bool] = None` field. -/
def optBool (f : String) : Option PyVal → EV (Option Bool)
  | none => .ok none
  | some .null => .ok none
  | some (.bool b) => .ok (some b)
  | some _ => .error [f ++ ": bool expected"]

/-- `bool = <default>` field (not `Optional`: null is rejected). -/
def boolD (f : String) (dflt : Bool) : Option PyVal → EV Bool
  | none => .ok dflt
  | some (.bool b) => .ok b
  | some _ => .error [f ++ ": bool expected"]

/-- All-strings view of a wire list. -/
def strList? : List PyVal → Option (List String)
  | [] => some []
  | .str s :: tl => (strList? tl).map (s :: ·)
  | _ => none

/-- Required `Union[List[str], str]` field (`outcomes`, `clobTokenIds`). -/
def reqStrOrList (f : String) : Option PyVal → EV StrOrList
  | none => .error [f ++ ": field required"]
  | some (.str s) => .ok (.str s)
  | some (.list xs) =>
    match strList? xs with
    | some ss => .ok (.strs ss)
    | none => .error [f ++ ": list of strings expected"]
  | some _ => .error [f ++ ": string or list of strings expected"]

/-- `Optional[datetime] = None` field under abstract base parser `dtp`. -/
def optDatetime (dtp : PyVal → Option Int) (f : String) :
    Option PyVal → EV (Option Int)
  | none => .ok none
  | some .null => .ok none
  | some v =>
    match dtp v with
    | some r => .ok (some r)
    | none => .error [f ++ ": invalid datetime"]

/-- A `FlexibleDatetime` field (models.py line 20): the
`parse_flexible_datetime` normalizer runs as a `BeforeValidator`, then the
value is validated as `Optional[datetime]`. -/
def flexDatetime (dtp : PyVal → Option Int) (f : String)
    (v : Option PyVal) : EV (Option Int) :=
  optDatetime dtp f (v.map parse_flexible_datetime)

/-- A `List[<model>] = []` field: absent means empty, elements validate
recursively with all errors collected. -/
def listOf {β : Type} (f : String) (p : PyVal → EV β) : Option PyVal → EV (List β)
  | none => .ok []
  | some (.list xs) =>
    xs.foldr (fun x acc => EV.seq2 (EV.seq2 (.ok List.cons) (p x)) acc) (.ok [])
  | some _ => .error [f ++ ": list expected"]

/-! ### `Market` (models.py lines 36–64) -/

structure Market where
  id : String
  question : String
  condition_id : String
  slug : String
  twitter_card_image : Option String
  resolution_source : Option String
  end_date_iso : Option String
  category : Option String
  amm_type : Option String
  liquidity : Option PyNum
  volume : Option PyNum
  outcomes : StrOrList
  clob_token_ids : StrOrList
  group_item_title : Option String
  group_item_threshold : Option String
  question_id : Option String
  rewards_min_size : Option PyNum
  rewards_max_spread : Option PyNum
  spread : Option PyNum
  last_trade_price : Option PyNum
  best_bid : Option PyNum
  best_ask : Option PyNum
  active : Bool
  closed : Bool
  archived : Bool
  restricted : Bool
  event_id : Option String

/-- Parse the fields of `Market` from the looked-up raw values, in
declaration order, collecting all errors. -/
def mkMarketFields (v0 v1 v2 v3 v4 v5 v6 v7 v8 v9 v10 v11 v12 v13 v14 v15 v16 v17 v18 v19 v20 v21 v22 v23 v24 v25 v26 : Option PyVal) :
    EV Market :=
  (EV.seq2 (EV.seq2 (EV.seq2 (EV.seq2 (EV.seq2 (EV.seq2 (EV.seq2 (EV.seq2 (EV.seq2 (EV.seq2 (EV.seq2 (EV.seq2 (EV.seq2 (EV.seq2 (EV.seq2 (EV.seq2 (EV.seq2 (EV.seq2 (EV.seq2 (EV.seq2 (EV.seq2 (EV.seq2 (EV.seq2 (EV.seq2 (EV.seq2 (EV.seq2 (EV.seq2 (Except.ok Market.mk)
    (reqStr "id" v0))
    (reqStr "question" v1))
    (reqStr "conditionId" v2))
    (reqStr "slug" v3))
    (optStr "twitterCardImage" v4))
    (optStr "resolutionSource" v5))
    (optStr "endDateIso" v6))
    (optStr "category" v7))
    (optStr "ammType" v8))
    (optFloat "liquidity" v9))
    (optFloat "volume" v10))
    (reqStrOrList "outcomes" v11))
    (reqStrOrList "clobTokenIds" v12))
    (optStr "groupItemTitle" v13))
    (optStr "groupItemThreshold" v14))
    (optStr "questionId" v15))
    (optFloat "rewardsMinSize" v16))
    (optFloat "rewardsMaxSpread" v17))
    (optFloat "spread" v18))
    (optFloat "lastTradePrice" v19))
    (optFloat "bestBid" v20))
    (optFloat "bestAsk" v21))
    (boolD "active" true v22))
    (boolD "closed" false v23))
    (boolD "archived" false v24))
    (boolD "restricted" false v25))
    (optStr "eventId" v26))

/-- `Market(**d)`: lookup by wire alias then field name, then validate. -/
def mkMarket (d : PDict) : EV Market :=
  mkMarketFields (fget d "id" "id") (fget d "question" "question")
    (fget d "conditionId" "condition_id") (fget d "slug" "slug")
    (fget d "twitterCardImage" "twitter_card_image")
    (fget d "resolutionSource" "resolution_source") (fget d "endDateIso" "end_date_iso")
    (fget d "category" "category") (fget d "ammType" "amm_type")
    (fget d "liquidity" "liquidity") (fget d "volume" "volume")
    (fget d "outcomes" "outcomes") (fget d "clobTokenIds" "clob_token_ids")
    (fget d "groupItemTitle" "group_item_title")
    (fget d "groupItemThreshold" "group_item_threshold") (fget d "questionId" "question_id")
    (fget d "rewardsMinSize" "rewards_min_size")
    (fget d "rewardsMaxSpread" "rewards_max_spread") (fget d "spread" "spread")
    (fget d "lastTradePrice" "last_trade_price") (fget d "bestBid" "best_bid")
    (fget d "bestAsk" "best_ask") (fget d "active" "active") (fget d "closed" "closed")
    (fget d "archived" "archived") (fget d "restricted" "restricted")
    (fget d "eventId" "event_id")

/-- Every declared field name and wire alias of `Market`. -/
def Market.wireKeys : List String :=
  ["id", "question", "conditionId", "condition_id", "slug", "twitterCardImage",
   "twitter_card_image", "resolutionSource", "resolution_source", "endDateIso", "end_date_iso",
   "category", "ammType", "amm_type", "liquidity", "volume", "outcomes", "clobTokenIds",
   "clob_token_ids", "groupItemTitle", "group_item_title", "groupItemThreshold",
   "group_item_threshold", "questionId", "question_id", "rewardsMinSize", "rewards_min_size",
   "rewardsMaxSpread", "rewards_max_spread", "spread", "lastTradePrice", "last_trade_price",
   "bestBid", "best_bid", "bestAsk", "best_ask", "active", "closed", "archived", "restricted",
   "eventId", "event_id"]

/-- A nested `Market` element must be an object. -/
def marketElem : PyVal → EV Market
  | .obj kvs => mkMarket kvs
  | _ => .error ["markets: object expected"]

theorem mkMarket_dset_unknown {k : String} (hk : k ∉ Market.wireKeys)
    (d : PDict) (v : PyVal) :
    mkMarket (dset d k v) = mkMarket d := by
  have h : ∀ al fn, al ∈ Market.wireKeys → fn ∈ Market.wireKeys →
      fget (dset d k v) al fn = fget d al fn :=
    fun al fn ha hn => fget_dset_stable hk ha hn d v
  unfold mkMarket
  rw [h "id" "id" (by decide) (by decide),
    h "question" "question" (by decide) (by decide),
    h "conditionId" "condition_id" (by decide) (by decide),
    h "slug" "slug" (by decide) (by decide),
    h "twitterCardImage" "twitter_card_image" (by decide) (by decide),
    h "resolutionSource" "resolution_source" (by decide) (by decide),
    h "endDateIso" "end_date_iso" (by decide) (by decide),
    h "category" "category" (by decide) (by decide),
    h "ammType" "amm_type" (by decide) (by decide),
    h "liquidity" "liquidity" (by decide) (by decide),
    h "volume" "volume" (by decide) (by decide),
    h "outcomes" "outcomes" (by decide) (by decide),
    h "clobTokenIds" "clob_token_ids" (by decide) (by decide),
    h "groupItemTitle" "group_item_title" (by decide) (by decide),
    h "groupItemThreshold" "group_item_threshold" (by decide) (by decide),
    h "questionId" "question_id" (by decide) (by decide),
    h "rewardsMinSize" "rewards_min_size" (by decide) (by decide),
    h "rewardsMaxSpread" "rewards_max_spread" (by decide) (by decide),
    h "spread" "spread" (by decide) (by decide),
    h "lastTradePrice" "last_trade_price" (by decide) (by decide),
    h "bestBid" "best_bid" (by decide) (by decide),
    h "bestAsk" "best_ask" (by decide) (by decide),
    h "active" "active" (by decide) (by decide),
    h "closed" "closed" (by decide) (by decide),
    h "archived" "archived" (by decide) (by decide),
    h "restricted" "restricted" (by decide) (by decide),
    h "eventId" "event_id" (by decide) (by decide)]

/-! ### `Tag` (models.py lines 25–34) -/

structure Tag where
  id : String
  label : Option String
  slug : Option String
  force_show : Option Bool
  force_hide : Option Bool
  is_carousel : Option Bool
  published_at : Option String
  created_at : Option Int
  updated_at : Option Int

/-- Parse the fields of `Tag` from the looked-up raw values, in
declaration order, collecting all errors. -/
def mkTagFields (dtp : PyVal → Option Int) (v0 v1 v2 v3 v4 v5 v6 v7 v8 : Option PyVal) :
    EV Tag :=
  (EV.seq2 (EV.seq2 (EV.seq2 (EV.seq2 (EV.seq2 (EV.seq2 (EV.seq2 (EV.seq2 (EV.seq2 (Except.ok Tag.mk)
    (reqStr "id" v0))
    (optStr "label" v1))
    (optStr "slug" v2))
    (optBool "forceShow" v3))
    (optBool "forceHide" v4))
    (optBool "isCarousel" v5))
    (optStr "publishedAt" v6))
    (optDatetime dtp "createdAt" v7))
    (optDatetime dtp "updatedAt" v8))

/-- `Tag(**d)`: lookup by wire alias then field name, then validate. -/
def mkTag (dtp : PyVal → Option Int) (d : PDict) : EV Tag :=
  mkTagFields dtp (fget d "id" "id") (fget d "label" "label") (fget d "slug" "slug")
    (fget d "forceShow" "force_show") (fget d "forceHide" "force_hide")
    (fget d "isCarousel" "is_carousel") (fget d "publishedAt" "published_at")
    (fget d "createdAt" "created_at") (fget d "updatedAt" "updated_at")

/-- Every declared field name and wire alias of `Tag`. -/
def Tag.wireKeys : List String :=
  ["id", "label", "slug", "forceShow", "force_show", "forceHide", "force_hide", "isCarousel",
   "is_carousel", "publishedAt", "published_at", "createdAt", "created_at", "updatedAt",
   "updated_at"]

/-- A nested `Tag` element must be an object. -/
def tagElem (dtp : PyVal → Option Int) : PyVal → EV Tag
  | .obj kvs => mkTag dtp kvs
  | _ => .error ["tags: object expected"]

theorem mkTag_dset_unknown {k : String} (hk : k ∉ Tag.wireKeys)
    (dtp : PyVal → Option Int) (d : PDict) (v : PyVal) :
    mkTag dtp (dset d k v) = mkTag dtp d := by
  have h : ∀ al fn, al ∈ Tag.wireKeys → fn ∈ Tag.wireKeys →
      fget (dset d k v) al fn = fget d al fn :=
    fun al fn ha hn => fget_dset_stable hk ha hn d v
  unfold mkTag
  rw [h "id" "id" (by decide) (by decide),
    h "label" "label" (by decide) (by decide),
    h "slug" "slug" (by decide) (by decide),
    h "forceShow" "force_show" (by decide) (by decide),
    h "forceHide" "force_hide" (by decide) (by decide),
    h "isCarousel" "is_carousel" (by decide) (by decide),
    h "publishedAt" "published_at" (by decide) (by decide),
    h "createdAt" "created_at" (by decide) (by decide),
    h "updatedAt" "updated_at" (by decide) (by decide)]

/-! ### `Event` (models.py lines 66–86) -/

structure Event where
  id : String
  ticker : Option String
  slug : String
  title : String
  description : Option String
  image : Option String
  icon : Option String
  active : Bool
  closed : Bool
  archived : Bool
  new : Bool
  featured : Bool
  restricted : Bool
  start_date : Option Int
  end_date : Option Int
  creation_date : Option Int
  last_updated_at : Option Int
  markets : List Market
  tags : List Tag

/-- Parse the fields of `Event` from the looked-up raw values, in
declaration order, collecting all errors. -/
def mkEventFields (dtp : PyVal → Option Int) (v0 v1 v2 v3 v4 v5 v6 v7 v8 v9 v10 v11 v12 v13 v14 v15 v16 v17 v18 : Option PyVal) :
    EV Event :=
  (EV.seq2 (EV.seq2 (EV.seq2 (EV.seq2 (EV.seq2 (EV.seq2 (EV.seq2 (EV.seq2 (EV.seq2 (EV.seq2 (EV.seq2 (EV.seq2 (EV.seq2 (EV.seq2 (EV.seq2 (EV.seq2 (EV.seq2 (EV.seq2 (EV.seq2 (Except.ok Event.mk)
    (reqStr "id" v0))
    (optStr "ticker" v1))
    (reqStr "slug" v2))
    (reqStr "title" v3))
    (optStr "description" v4))
    (optStr "image" v5))
    (optStr "icon" v6))
    (boolD "active" true v7))
    (boolD "closed" false v8))
    (boolD "archived" false v9))
    (boolD "new" false v10))
    (boolD "featured" false v11))
    (boolD "restricted" false v12))
    (optDatetime dtp "startDate" v13))
    (optDatetime dtp "endDate" v14))
    (optDatetime dtp "creationDate" v15))
    (optDatetime dtp "lastUpdatedAt" v16))
    (listOf "markets" marketElem v17))
    (listOf "tags" (tagElem dtp) v18))

/-- `Event(**d)`: lookup by wire alias then field name, then validate. -/
def mkEvent (dtp : PyVal → Option Int) (d : PDict) : EV Event :=
  mkEventFields dtp (fget d "id" "id") (fget d "ticker" "ticker") (fget d "slug" "slug")
    (fget d "title" "title") (fget d "description" "description") (fget d "image" "image")
    (fget d "icon" "icon") (fget d "active" "active") (fget d "closed" "closed")
    (fget d "archived" "archived") (fget d "new" "new") (fget d "featured" "featured")
    (fget d "restricted" "restricted") (fget d "startDate" "start_date")
    (fget d "endDate" "end_date") (fget d "creationDate" "creation_date")
    (fget d "lastUpdatedAt" "last_updated_at") (fget d "markets" "markets")
    (fget d "tags" "tags")

/-- Every declared field name and wire alias of `Event`. -/
def Event.wireKeys : List String :=
  ["id", "ticker", "slug", "title", "description", "image", "icon", "active", "closed",
   "archived", "new", "featured", "restricted", "startDate", "start_date", "endDate",
   "end_date", "creationDate", "creation_date", "lastUpdatedAt", "last_updated_at", "markets",
   "tags"]

theorem mkEvent_dset_unknown {k : String} (hk : k ∉ Event.wireKeys)
    (dtp : PyVal → Option Int) (d : PDict) (v : PyVal) :
    mkEvent dtp (dset d k v) = mkEvent dtp d := by
  have h : ∀ al fn, al ∈ Event.wireKeys → fn ∈ Event.wireKeys →
      fget (dset d k v) al fn = fget d al fn :=
    fun al fn ha hn => fget_dset_stable hk ha hn d v
  unfold mkEvent
  rw [h "id" "id" (by decide) (by decide),
    h "ticker" "ticker" (by decide) (by decide),
    h "slug" "slug" (by decide) (by decide),
    h "title" "title" (by decide) (by decide),
    h "description" "description" (by decide) (by decide),
    h "image" "image" (by decide) (by decide),
    h "icon" "icon" (by decide) (by decide),
    h "active" "active" (by decide) (by decide),
    h "closed" "closed" (by decide) (by decide),
    h "archived" "archived" (by decide) (by decide),
    h "new" "new" (by decide) (by decide),
    h "featured" "featured" (by decide) (by decide),
    h "restricted" "restricted" (by decide) (by decide),
    h "startDate" "start_date" (by decide) (by decide),
    h "endDate" "end_date" (by decide) (by decide),
    h "creationDate" "creation_date" (by decide) (by decide),
    h "lastUpdatedAt" "last_updated_at" (by decide) (by decide),
    h "markets" "markets" (by decide) (by decide),
    h "tags" "tags" (by decide) (by decide)]

/-! ### `PublicSearchMarket` (models.py lines 142–214); note line 157 `closed_time` is the only `FlexibleDatetime` field and line 163 `uma_end_date` is a plain `Optional[datetime]` -/

structure PublicSearchMarket where
  id : String
  question : String
  condition_id : String
  slug : String
  resolution_source : Option String
  end_date : Option Int
  start_date : Option Int
  image : Option String
  icon : Option String
  description : Option String
  outcomes : Option String
  outcome_prices : Option String
  market_maker_address : Option String
  closed_time : Option Int
  submitted_by : Option String
  resolved_by : Option String
  group_item_title : Option String
  group_item_threshold : Option String
  question_id : Option String
  uma_end_date : Option Int
  order_price_min_tick_size : Option PyNum
  order_min_size : Option PyNum
  uma_resolution_status : Option String
  volume_num : Option PyNum
  end_date_iso : Option String
  start_date_iso : Option String
  has_reviewed_dates : Option Bool
  clob_token_ids : Option String
  uma_bond : Option String
  uma_reward : Option String
  volume_1wk_clob : Option PyNum
  volume_1mo_clob : Option PyNum
  volume_1yr_clob : Option PyNum
  volume_clob : Option PyNum
  custom_liveness : Option Int
  accepting_orders : Option Bool
  neg_risk_request_id : Option String
  ready : Option Bool
  funded : Option Bool
  accepting_orders_timestamp : Option Int
  cyom : Option Bool
  pager_duty_notification_enabled : Option Bool
  approved : Option Bool
  rewards_min_size : Option PyNum
  rewards_max_spread : Option PyNum
  spread : Option PyNum
  automatically_resolved : Option Bool
  last_trade_price : Option PyNum
  best_ask : Option PyNum
  best_bid : Option PyNum
  automatically_active : Option Bool
  clear_book_on_start : Option Bool
  manual_activation : Option Bool
  neg_risk_other : Option Bool
  uma_resolution_statuses : Option String
  pending_deployment : Option Bool
  deploying : Option Bool
  deploying_timestamp : Option Int
  rfq_enabled : Option Bool
  holding_rewards_enabled : Option Bool
  fees_enabled : Option Bool
  requires_translation : Option Bool
  active : Bool
  closed : Bool
  archived : Bool
  restricted : Bool
  liquidity : Option PyNum
  volume : Option PyNum
  new : Bool
  featured : Bool
  neg_risk : Option Bool

/-- Parse the fields of `PublicSearchMarket` from the looked-up raw values, in
declaration order, collecting all errors. -/
def mkPublicSearchMarketFields (dtp : PyVal → Option Int) (v0 v1 v2 v3 v4 v5 v6 v7 v8 v9 v10 v11 v12 v13 v14 v15 v16 v17 v18 v19 v20 v21 v22 v23 v24 v25 v26 v27 v28 v29 v30 v31 v32 v33 v34 v35 v36 v37 v38 v39 v40 v41 v42 v43 v44 v45 v46 v47 v48 v49 v50 v51 v52 v53 v54 v55 v56 v57 v58 v59 v60 v61 v62 v63 v64 v65 v66 v67 v68 v69 v70 : Option PyVal) :
    EV PublicSearchMarket :=
  (EV.seq2 (EV.seq2 (EV.seq2 (EV.seq2 (EV.seq2 (EV.seq2 (EV.seq2 (EV.seq2 (EV.seq2 (EV.seq2 (EV.seq2 (EV.seq2 (EV.seq2 (EV.seq2 (EV.seq2 (EV.seq2 (EV.seq2 (EV.seq2 (EV.seq2 (EV.seq2 (EV.seq2 (EV.seq2 (EV.seq2 (EV.seq2 (EV.seq2 (EV.seq2 (EV.seq2 (EV.seq2 (EV.seq2 (EV.seq2 (EV.seq2 (EV.seq2 (EV.seq2 (EV.seq2 (EV.seq2 (EV.seq2 (EV.seq2 (EV.seq2 (EV.seq2 (EV.seq2 (EV.seq2 (EV.seq2 (EV.seq2 (EV.seq2 (EV.seq2 (EV.seq2 (EV.seq2 (EV.seq2 (EV.seq2 (EV.seq2 (EV.seq2 (EV.seq2 (EV.seq2 (EV.seq2 (EV.seq2 (EV.seq2 (EV.seq2 (EV.seq2 (EV.seq2 (EV.seq2 (EV.seq2 (EV.seq2 (EV.seq2 (EV.seq2 (EV.seq2 (EV.seq2 (EV.seq2 (EV.seq2 (EV.seq2 (EV.seq2 (EV.seq2 (Except.ok PublicSearchMarket.mk)
    (reqStr "id" v0))
    (reqStr "question" v1))
    (reqStr "conditionId" v2))
    (reqStr "slug" v3))
    (optStr "resolutionSource" v4))
    (optDatetime dtp "endDate" v5))
    (optDatetime dtp "startDate" v6))
    (optStr "image" v7))
    (optStr "icon" v8))
    (optStr "description" v9))
    (optStr "outcomes" v10))
    (optStr "outcomePrices" v11))
    (optStr "marketMakerAddress" v12))
    (flexDatetime dtp "closedTime" v13))
    (optStr "submitted_by" v14))
    (optStr "resolvedBy" v15))
    (optStr "groupItemTitle" v16))
    (optStr "groupItemThreshold" v17))
    (optStr "questionID" v18))
    (optDatetime dtp "umaEndDate" v19))
    (optFloat "orderPriceMinTickSize" v20))
    (optFloat "orderMinSize" v21))
    (optStr "umaResolutionStatus" v22))
    (optFloat "volumeNum" v23))
    (optStr "endDateIso" v24))
    (optStr "startDateIso" v25))
    (optBool "hasReviewedDates" v26))
    (optStr "clobTokenIds" v27))
    (optStr "umaBond" v28))
    (optStr "umaReward" v29))
    (optFloat "volume1wkClob" v30))
    (optFloat "volume1moClob" v31))
    (optFloat "volume1yrClob" v32))
    (optFloat "volumeClob" v33))
    (optInt "customLiveness" v34))
    (optBool "acceptingOrders" v35))
    (optStr "negRiskRequestID" v36))
    (optBool "ready" v37))
    (optBool "funded" v38))
    (optDatetime dtp "acceptingOrdersTimestamp" v39))
    (optBool "cyom" v40))
    (optBool "pagerDutyNotificationEnabled" v41))
    (optBool "approved" v42))
    (optFloat "rewardsMinSize" v43))
    (optFloat "rewardsMaxSpread" v44))
    (optFloat "spread" v45))
    (optBool "automaticallyResolved" v46))
    (optFloat "lastTradePrice" v47))
    (optFloat "bestAsk" v48))
    (optFloat "bestBid" v49))
    (optBool "automaticallyActive" v50))
    (optBool "clearBookOnStart" v51))
    (optBool "manualActivation" v52))
    (optBool "negRiskOther" v53))
    (optStr "umaResolutionStatuses" v54))
    (optBool "pendingDeployment" v55))
    (optBool "deploying" v56))
    (optDatetime dtp "deployingTimestamp" v57))
    (optBool "rfqEnabled" v58))
    (optBool "holdingRewardsEnabled" v59))
    (optBool "feesEnabled" v60))
    (optBool "requiresTranslation" v61))
    (boolD "active" true v62))
    (boolD "closed" false v63))
    (boolD "archived" false v64))
    (boolD "restricted" false v65))
    (optFloat "liquidity" v66))
    (optFloat "volume" v67))
    (boolD "new" false v68))
    (boolD "featured" false v69))
    (optBool "negRisk" v70))

/-- `PublicSearchMarket(**d)`: lookup by wire alias then field name, then validate. -/
def mkPublicSearchMarket (dtp : PyVal → Option Int) (d : PDict) : EV PublicSearchMarket :=
  mkPublicSearchMarketFields dtp (fget d "id" "id") (fget d "question" "question")
    (fget d "conditionId" "condition_id") (fget d "slug" "slug")
    (fget d "resolutionSource" "resolution_source") (fget d "endDate" "end_date")
    (fget d "startDate" "start_date") (fget d "image" "image") (fget d "icon" "icon")
    (fget d "description" "description") (fget d "outcomes" "outcomes")
    (fget d "outcomePrices" "outcome_prices")
    (fget d "marketMakerAddress" "market_maker_address") (fget d "closedTime" "closed_time")
    (fget d "submitted_by" "submitted_by") (fget d "resolvedBy" "resolved_by")
    (fget d "groupItemTitle" "group_item_title")
    (fget d "groupItemThreshold" "group_item_threshold") (fget d "questionID" "question_id")
    (fget d "umaEndDate" "uma_end_date")
    (fget d "orderPriceMinTickSize" "order_price_min_tick_size")
    (fget d "orderMinSize" "order_min_size")
    (fget d "umaResolutionStatus" "uma_resolution_status") (fget d "volumeNum" "volume_num")
    (fget d "endDateIso" "end_date_iso") (fget d "startDateIso" "start_date_iso")
    (fget d "hasReviewedDates" "has_reviewed_dates")
    (fget d "clobTokenIds" "clob_token_ids") (fget d "umaBond" "uma_bond")
    (fget d "umaReward" "uma_reward") (fget d "volume1wkClob" "volume_1wk_clob")
    (fget d "volume1moClob" "volume_1mo_clob") (fget d "volume1yrClob" "volume_1yr_clob")
    (fget d "volumeClob" "volume_clob") (fget d "customLiveness" "custom_liveness")
    (fget d "acceptingOrders" "accepting_orders")
    (fget d "negRiskRequestID" "neg_risk_request_id") (fget d "ready" "ready")
    (fget d "funded" "funded")
    (fget d "acceptingOrdersTimestamp" "accepting_orders_timestamp") (fget d "cyom" "cyom")
    (fget d "pagerDutyNotificationEnabled" "pager_duty_notification_enabled")
    (fget d "approved" "approved") (fget d "rewardsMinSize" "rewards_min_size")
    (fget d "rewardsMaxSpread" "rewards_max_spread") (fget d "spread" "spread")
    (fget d "automaticallyResolved" "automatically_resolved")
    (fget d "lastTradePrice" "last_trade_price") (fget d "bestAsk" "best_ask")
    (fget d "bestBid" "best_bid") (fget d "automaticallyActive" "automatically_active")
    (fget d "clearBookOnStart" "clear_book_on_start")
    (fget d "manualActivation" "manual_activation") (fget d "negRiskOther" "neg_risk_other")
    (fget d "umaResolutionStatuses" "uma_resolution_statuses")
    (fget d "pendingDeployment" "pending_deployment") (fget d "deploying" "deploying")
    (fget d "deployingTimestamp" "deploying_timestamp") (fget d "rfqEnabled" "rfq_enabled")
    (fget d "holdingRewardsEnabled" "holding_rewards_enabled")
    (fget d "feesEnabled" "fees_enabled")
    (fget d "requiresTranslation" "requires_translation") (fget d "active" "active")
    (fget d "closed" "closed") (fget d "archived" "archived")
    (fget d "restricted" "restricted") (fget d "liquidity" "liquidity")
    (fget d "volume" "volume") (fget d "new" "new") (fget d "featured" "featured")
    (fget d "negRisk" "neg_risk")

/-- Every declared field name and wire alias of `PublicSearchMarket`. -/
def PublicSearchMarket.wireKeys : List String :=
  ["id", "question", "conditionId", "condition_id", "slug", "resolutionSource",
   "resolution_source", "endDate", "end_date", "startDate", "start_date", "image", "icon",
   "description", "outcomes", "outcomePrices", "outcome_prices", "marketMakerAddress",
   "market_maker_address", "closedTime", "closed_time", "submitted_by", "resolvedBy",
   "resolved_by", "groupItemTitle", "group_item_title", "groupItemThreshold",
   "group_item_threshold", "questionID", "question_id", "umaEndDate", "uma_end_date",
   "orderPriceMinTickSize", "order_price_min_tick_size", "orderMinSize", "order_min_size",
   "umaResolutionStatus", "uma_resolution_status", "volumeNum", "volume_num", "endDateIso",
   "end_date_iso", "startDateIso", "start_date_iso", "hasReviewedDates", "has_reviewed_dates",
   "clobTokenIds", "clob_token_ids", "umaBond", "uma_bond", "umaReward", "uma_reward",
   "volume1wkClob", "volume_1wk_clob", "volume1moClob", "volume_1mo_clob", "volume1yrClob",
   "volume_1yr_clob", "volumeClob", "volume_clob", "customLiveness", "custom_liveness",
   "acceptingOrders", "accepting_orders", "negRiskRequestID", "neg_risk_request_id", "ready",
   "funded", "acceptingOrdersTimestamp", "accepting_orders_timestamp", "cyom",
   "pagerDutyNotificationEnabled", "pager_duty_notification_enabled", "approved",
   "rewardsMinSize", "rewards_min_size", "rewardsMaxSpread", "rewards_max_spread", "spread",
   "automaticallyResolved", "automatically_resolved", "lastTradePrice", "last_trade_price",
   "bestAsk", "best_ask", "bestBid", "best_bid", "automaticallyActive", "automatically_active",
   "clearBookOnStart", "clear_book_on_start", "manualActivation", "manual_activation",
   "negRiskOther", "neg_risk_other", "umaResolutionStatuses", "uma_resolution_statuses",
   "pendingDeployment", "pending_deployment", "deploying", "deployingTimestamp",
   "deploying_timestamp", "rfqEnabled", "rfq_enabled", "holdingRewardsEnabled",
   "holding_rewards_enabled", "feesEnabled", "fees_enabled", "requiresTranslation",
   "requires_translation", "active", "closed", "archived", "restricted", "liquidity", "volume",
   "new", "featured", "negRisk", "neg_risk"]

/-- A nested `PublicSearchMarket` element must be an object. -/
def publicSearchMarketElem (dtp : PyVal → Option Int) : PyVal → EV PublicSearchMarket
  | .obj kvs => mkPublicSearchMarket dtp kvs
  | _ => .error ["markets: object expected"]

theorem mkPublicSearchMarket_dset_unknown {k : String} (hk : k ∉ PublicSearchMarket.wireKeys)
    (dtp : PyVal → Option Int) (d : PDict) (v : PyVal) :
    mkPublicSearchMarket dtp (dset d k v) = mkPublicSearchMarket dtp d := by
  have h : ∀ al fn, al ∈ PublicSearchMarket.wireKeys → fn ∈ PublicSearchMarket.wireKeys →
      fget (dset d k v) al fn = fget d al fn :=
    fun al fn ha hn => fget_dset_stable hk ha hn d v
  unfold mkPublicSearchMarket
  rw [h "id" "id" (by decide) (by decide),
    h "question" "question" (by decide) (by decide),
    h "conditionId" "condition_id" (by decide) (by decide),
    h "slug" "slug" (by decide) (by decide),
    h "resolutionSource" "resolution_source" (by decide) (by decide),
    h "endDate" "end_date" (by decide) (by decide),
    h "startDate" "start_date" (by decide) (by decide),
    h "image" "image" (by decide) (by decide),
    h "icon" "icon" (by decide) (by decide),
    h "description" "description" (by decide) (by decide),
    h "outcomes" "outcomes" (by decide) (by decide),
    h "outcomePrices" "outcome_prices" (by decide) (by decide),
    h "marketMakerAddress" "market_maker_address" (by decide) (by decide),
    h "closedTime" "closed_time" (by decide) (by decide),
    h "submitted_by" "submitted_by" (by decide) (by decide),
    h "resolvedBy" "resolved_by" (by decide) (by decide),
    h "groupItemTitle" "group_item_title" (by decide) (by decide),
    h "groupItemThreshold" "group_item_threshold" (by decide) (by decide),
    h "questionID" "question_id" (by decide) (by decide),
    h "umaEndDate" "uma_end_date" (by decide) (by decide),
    h "orderPriceMinTickSize" "order_price_min_tick_size" (by decide) (by decide),
    h "orderMinSize" "order_min_size" (by decide) (by decide),
    h "umaResolutionStatus" "uma_resolution_status" (by decide) (by decide),
    h "volumeNum" "volume_num" (by decide) (by decide),
    h "endDateIso" "end_date_iso" (by decide) (by decide),
    h "startDateIso" "start_date_iso" (by decide) (by decide),
    h "hasReviewedDates" "has_reviewed_dates" (by decide) (by decide),
    h "clobTokenIds" "clob_token_ids" (by decide) (by decide),
    h "umaBond" "uma_bond" (by decide) (by decide),
    h "umaReward" "uma_reward" (by decide) (by decide),
    h "volume1wkClob" "volume_1wk_clob" (by decide) (by decide),
    h "volume1moClob" "volume_1mo_clob" (by decide) (by decide),
    h "volume1yrClob" "volume_1yr_clob" (by decide) (by decide),
    h "volumeClob" "volume_clob" (by decide) (by decide),
    h "customLiveness" "custom_liveness" (by decide) (by decide),
    h "acceptingOrders" "accepting_orders" (by decide) (by decide),
    h "negRiskRequestID" "neg_risk_request_id" (by decide) (by decide),
    h "ready" "ready" (by decide) (by decide),
    h "funded" "funded" (by decide) (by decide),
    h "acceptingOrdersTimestamp" "accepting_orders_timestamp" (by decide) (by decide),
    h "cyom" "cyom" (by decide) (by decide),
    h "pagerDutyNotificationEnabled" "pager_duty_notification_enabled" (by decide) (by decide),
    h "approved" "approved" (by decide) (by decide),
    h "rewardsMinSize" "rewards_min_size" (by decide) (by decide),
    h "rewardsMaxSpread" "rewards_max_spread" (by decide) (by decide),
    h "spread" "spread" (by decide) (by decide),
    h "automaticallyResolved" "automatically_resolved" (by decide) (by decide),
    h "lastTradePrice" "last_trade_price" (by decide) (by decide),
    h "bestAsk" "best_ask" (by decide) (by decide),
    h "bestBid" "best_bid" (by decide) (by decide),
    h "automaticallyActive" "automatically_active" (by decide) (by decide),
    h "clearBookOnStart" "clear_book_on_start" (by decide) (by decide),
    h "manualActivation" "manual_activation" (by decide) (by decide),
    h "negRiskOther" "neg_risk_other" (by decide) (by decide),
    h "umaResolutionStatuses" "uma_resolution_statuses" (by decide) (by decide),
    h "pendingDeployment" "pending_deployment" (by decide) (by decide),
    h "deploying" "deploying" (by decide) (by decide),
    h "deployingTimestamp" "deploying_timestamp" (by decide) (by decide),
    h "rfqEnabled" "rfq_enabled" (by decide) (by decide),
    h "holdingRewardsEnabled" "holding_rewards_enabled" (by decide) (by decide),
    h "feesEnabled" "fees_enabled" (by decide) (by decide),
    h "requiresTranslation" "requires_translation" (by decide) (by decide),
    h "active" "active" (by decide) (by decide),
    h "closed" "closed" (by decide) (by decide),
    h "archived" "archived" (by decide) (by decide),
    h "restricted" "restricted" (by decide) (by decide),
    h "liquidity" "liquidity" (by decide) (by decide),
    h "volume" "volume" (by decide) (by decide),
    h "new" "new" (by decide) (by decide),
    h "featured" "featured" (by decide) (by decide),
    h "negRisk" "neg_risk" (by decide) (by decide)]

/-! ### `PublicSearchEvent` (models.py lines 217–251) -/

structure PublicSearchEvent where
  id : String
  ticker : Option String
  slug : String
  title : String
  description : Option String
  resolution_source : Option String
  start_date : Option Int
  creation_date : Option Int
  end_date : Option Int
  image : Option String
  icon : Option String
  active : Bool
  closed : Bool
  archived : Bool
  new : Bool
  featured : Bool
  restricted : Bool
  liquidity : Option PyNum
  volume : Option PyNum
  open_interest : Option PyNum
  created_at : Option Int
  updated_at : Option Int
  competitive : Option PyNum
  volume_24hr : Option PyNum
  volume_1wk : Option PyNum
  volume_1mo : Option PyNum
  volume_1yr : Option PyNum
  enable_order_book : Option Bool
  liquidity_clob : Option PyNum
  neg_risk : Option Bool
  neg_risk_market_id : Option String
  comment_count : Option Int
  markets : List PublicSearchMarket

/-- Parse the fields of `PublicSearchEvent` from the looked-up raw values, in
declaration order, collecting all errors. -/
def mkPublicSearchEventFields (dtp : PyVal → Option Int) (v0 v1 v2 v3 v4 v5 v6 v7 v8 v9 v10 v11 v12 v13 v14 v15 v16 v17 v18 v19 v20 v21 v22 v23 v24 v25 v26 v27 v28 v29 v30 v31 v32 : Option PyVal) :
    EV PublicSearchEvent :=
  (EV.seq2 (EV.seq2 (EV.seq2 (EV.seq2 (EV.seq2 (EV.seq2 (EV.seq2 (EV.seq2 (EV.seq2 (EV.seq2 (EV.seq2 (EV.seq2 (EV.seq2 (EV.seq2 (EV.seq2 (EV.seq2 (EV.seq2 (EV.seq2 (EV.seq2 (EV.seq2 (EV.seq2 (EV.seq2 (EV.seq2 (EV.seq2 (EV.seq2 (EV.seq2 (EV.seq2 (EV.seq2 (EV.seq2 (EV.seq2 (EV.seq2 (EV.seq2 (EV.seq2 (Except.ok PublicSearchEvent.mk)
    (reqStr "id" v0))
    (optStr "ticker" v1))
    (reqStr "slug" v2))
    (reqStr "title" v3))
    (optStr "description" v4))
    (optStr "resolutionSource" v5))
    (optDatetime dtp "startDate" v6))
    (optDatetime dtp "creationDate" v7))
    (optDatetime dtp "endDate" v8))
    (optStr "image" v9))
    (optStr "icon" v10))
    (boolD "active" true v11))
    (boolD "closed" false v12))
    (boolD "archived" false v13))
    (boolD "new" false v14))
    (boolD "featured" false v15))
    (boolD "restricted" false v16))
    (optFloat "liquidity" v17))
    (optFloat "volume" v18))
    (optFloat "openInterest" v19))
    (optDatetime dtp "createdAt" v20))
    (optDatetime dtp "updatedAt" v21))
    (optFloat "competitive" v22))
    (optFloat "volume24hr" v23))
    (optFloat "volume1wk" v24))
    (optFloat "volume1mo" v25))
    (optFloat "volume1yr" v26))
    (optBool "enableOrderBook" v27))
    (optFloat "liquidityClob" v28))
    (optBool "negRisk" v29))
    (optStr "negRiskMarketID" v30))
    (optInt "commentCount" v31))
    (listOf "markets" (publicSearchMarketElem dtp) v32))

/-- `PublicSearchEvent(**d)`: lookup by wire alias then field name, then validate. -/
def mkPublicSearchEvent (dtp : PyVal → Option Int) (d : PDict) : EV PublicSearchEvent :=
  mkPublicSearchEventFields dtp (fget d "id" "id") (fget d "ticker" "ticker")
    (fget d "slug" "slug") (fget d "title" "title") (fget d "description" "description")
    (fget d "resolutionSource" "resolution_source") (fget d "startDate" "start_date")
    (fget d "creationDate" "creation_date") (fget d "endDate" "end_date")
    (fget d "image" "image") (fget d "icon" "icon") (fget d "active" "active")
    (fget d "closed" "closed") (fget d "archived" "archived") (fget d "new" "new")
    (fget d "featured" "featured") (fget d "restricted" "restricted")
    (fget d "liquidity" "liquidity") (fget d "volume" "volume")
    (fget d "openInterest" "open_interest") (fget d "createdAt" "created_at")
    (fget d "updatedAt" "updated_at") (fget d "competitive" "competitive")
    (fget d "volume24hr" "volume_24hr") (fget d "volume1wk" "volume_1wk")
    (fget d "volume1mo" "volume_1mo") (fget d "volume1yr" "volume_1yr")
    (fget d "enableOrderBook" "enable_order_book") (fget d "liquidityClob" "liquidity_clob")
    (fget d "negRisk" "neg_risk") (fget d "negRiskMarketID" "neg_risk_market_id")
    (fget d "commentCount" "comment_count") (fget d "markets" "markets")

/-- Every declared field name and wire alias of `PublicSearchEvent`. -/
def PublicSearchEvent.wireKeys : List String :=
  ["id", "ticker", "slug", "title", "description", "resolutionSource", "resolution_source",
   "startDate", "start_date", "creationDate", "creation_date", "endDate", "end_date", "image",
   "icon", "active", "closed", "archived", "new", "featured", "restricted", "liquidity",
   "volume", "openInterest", "open_interest", "createdAt", "created_at", "updatedAt",
   "updated_at", "competitive", "volume24hr", "volume_24hr", "volume1wk", "volume_1wk",
   "volume1mo", "volume_1mo", "volume1yr", "volume_1yr", "enableOrderBook", "enable_order_book",
   "liquidityClob", "liquidity_clob", "negRisk", "neg_risk", "negRiskMarketID",
   "neg_risk_market_id", "commentCount", "comment_count", "markets"]

theorem mkPublicSearchEvent_dset_unknown {k : String} (hk : k ∉ PublicSearchEvent.wireKeys)
    (dtp : PyVal → Option Int) (d : PDict) (v : PyVal) :
    mkPublicSearchEvent dtp (dset d k v) = mkPublicSearchEvent dtp d := by
  have h : ∀ al fn, al ∈ PublicSearchEvent.wireKeys → fn ∈ PublicSearchEvent.wireKeys →
      fget (dset d k v) al fn = fget d al fn :=
    fun al fn ha hn => fget_dset_stable hk ha hn d v
  unfold mkPublicSearchEvent
  rw [h "id" "id" (by decide) (by decide),
    h "ticker" "ticker" (by decide) (by decide),
    h "slug" "slug" (by decide) (by decide),
    h "title" "title" (by decide) (by decide),
    h "description" "description" (by decide) (by decide),
    h "resolutionSource" "resolution_source" (by decide) (by decide),
    h "startDate" "start_date" (by decide) (by decide),
    h "creationDate" "creation_date" (by decide) (by decide),
    h "endDate" "end_date" (by decide) (by decide),
    h "image" "image" (by decide) (by decide),
    h "icon" "icon" (by decide) (by decide),
    h "active" "active" (by decide) (by decide),
    h "closed" "closed" (by decide) (by decide),
    h "archived" "archived" (by decide) (by decide),
    h "new" "new" (by decide) (by decide),
    h "featured" "featured" (by decide) (by decide),
    h "restricted" "restricted" (by decide) (by decide),
    h "liquidity" "liquidity" (by decide) (by decide),
    h "volume" "volume" (by decide) (by decide),
    h "openInterest" "open_interest" (by decide) (by decide),
    h "createdAt" "created_at" (by decide) (by decide),
    h "updatedAt" "updated_at" (by decide) (by decide),
    h "competitive" "competitive" (by decide) (by decide),
    h "volume24hr" "volume_24hr" (by decide) (by decide),
    h "volume1wk" "volume_1wk" (by decide) (by decide),
    h "volume1mo" "volume_1mo" (by decide) (by decide),
    h "volume1yr" "volume_1yr" (by decide) (by decide),
    h "enableOrderBook" "enable_order_book" (by decide) (by decide),
    h "liquidityClob" "liquidity_clob" (by decide) (by decide),
    h "negRisk" "neg_risk" (by decide) (by decide),
    h "negRiskMarketID" "neg_risk_market_id" (by decide) (by decide),
    h "commentCount" "comment_count" (by decide) (by decide),
    h "markets" "markets" (by decide) (by decide)]

/-! ## Market mandatory-field validation (C6, C8) -/

theorem strList?_map (xs : List String) : strList? (xs.map PyVal.str) = some xs := by
  induction xs with
  | nil => rfl
  | cons x tl ih => simp [strList?, ih]

/-- Wire encoding of a `Union[List[str], str]` value. -/
def strOrListVal : StrOrList → PyVal
  | .strs xs => .list (xs.map .str)
  | .str s => .str s

theorem reqStrOrList_strOrListVal (f : String) (o : StrOrList) :
    reqStrOrList f (some (strOrListVal o)) = .ok o := by
  cases o with
  | strs xs => simp [strOrListVal, reqStrOrList, strList?_map]
  | str s => rfl

/-- Kwargs carrying exactly the six mandatory `Market` fields. -/
def marketMandatoryKwargs (i q c s : String) (o cl : StrOrList) : PDict :=
  [("id", .str i), ("question", .str q), ("conditionId", .str c),
   ("slug", .str s), ("outcomes", strOrListVal o), ("clobTokenIds", strOrListVal cl)]

/-- Constructing a `Market` from exactly the six mandatory fields succeeds,
with every optional field `none` and the flag defaults. -/
theorem mkMarket_mandatory_ok (i q c s : String) (vo vc : PyVal) (o cl : StrOrList)
    (ho : reqStrOrList "outcomes" (some vo) = .ok o)
    (hc : reqStrOrList "clobTokenIds" (some vc) = .ok cl) :
    mkMarket [("id", .str i), ("question", .str q), ("conditionId", .str c),
      ("slug", .str s), ("outcomes", vo), ("clobTokenIds", vc)]
      = .ok ⟨i, q, c, s, none, none, none, none, none, none, none, o, cl, none,
        none, none, none, none, none, none, none, none, true, false, false,
        false, none⟩ := by
  show mkMarketFields (some (.str i)) (some (.str q)) (some (.str c))
      (some (.str s)) none none none none none none none (some vo) (some vc)
      none none none none none none none none none none none none none none
      = _
  unfold mkMarketFields
  rw [ho, hc]
  rfl

/-- **C6.** Market construction from a mapping fails validation whenever any
of `id`, `question`, `conditionId`, `slug`, `outcomes`, `clobTokenIds` is
absent (under neither its wire alias nor its field name); and when exactly
these mandatory fields are supplied (with type-correct values), construction
succeeds and every optional field is `null` — in particular the numeric
fields `liquidity`, `volume` and the price fields resolve to `none`, never
zero — with only the documented flag defaults `active=true`,
`closed=archived=restricted=false`. -/
theorem market_mandatory_fields_validation :
    (∀ d : PDict,
      fget d "id" "id" = none ∨ fget d "question" "question" = none ∨
      fget d "conditionId" "condition_id" = none ∨ fget d "slug" "slug" = none ∨
      fget d "outcomes" "outcomes" = none ∨
      fget d "clobTokenIds" "clob_token_ids" = none →
      ∃ errs, errs ≠ [] ∧ mkMarket d = .error errs) ∧
    (∀ (i q c s : String) (o cl : StrOrList),
      mkMarket (marketMandatoryKwargs i q c s o cl)
        = .ok ⟨i, q, c, s, none, none, none, none, none, none, none, o, cl, none,
          none, none, none, none, none, none, none, none, true, false, false,
          false, none⟩) := by
  constructor
  · intro d hd
    have herr : (mkMarket d).errs ≠ [] := by
      rcases hd with h | h | h | h | h | h <;>
        simp [mkMarket, mkMarketFields, h, reqStr, reqStrOrList,
          EV.errs_seq2, EV.errs_ok, EV.errs_error]
    exact ⟨(mkMarket d).errs, herr, EV.eq_error_of_errs_ne herr⟩
  · intro i q c s o cl
    exact mkMarket_mandatory_ok i q c s _ _ o cl
      (reqStrOrList_strOrListVal _ o) (reqStrOrList_strOrListVal _ cl)

/-- Witness for C6: a mapping missing `id` fails; the six mandatory fields
alone succeed with all optionals `none`. -/
theorem market_mandatory_fields_validation_witness :
    (fget [("question", PyVal.str "Q")] "id" "id" = none ∧
      ∃ errs, errs ≠ [] ∧ mkMarket [("question", PyVal.str "Q")] = .error errs) ∧
    mkMarket (marketMandatoryKwargs "1" "Q" "0x1" "mslug"
        (.strs ["A", "B"]) (.strs ["T1", "T2"]))
      = .ok ⟨"1", "Q", "0x1", "mslug", none, none, none, none, none, none, none,
        .strs ["A", "B"], .strs ["T1", "T2"], none, none, none, none, none, none,
        none, none, none, true, false, false, false, none⟩ :=
  ⟨⟨rfl, market_mandatory_fields_validation.1 _ (Or.inl rfl)⟩,
    market_mandatory_fields_validation.2 "1" "Q" "0x1" "mslug" _ _⟩

/-- **C6 counterexample.** Validation does not fail *exactly* when a mandatory
field is absent: a mapping holding all six mandatory fields plus a
type-mismatched optional field (`liquidity` set to the boolean `true`, which
pydantic rejects for a `float` field) fails validation although no mandatory
field is absent. -/
theorem market_mandatory_exactly_counterexample :
    fget (dset (marketMandatoryKwargs "1" "Q" "0x1" "mslug" (.str "A") (.str "B"))
        "liquidity" (.bool true)) "id" "id" = some (.str "1") ∧
    fget (dset (marketMandatoryKwargs "1" "Q" "0x1" "mslug" (.str "A") (.str "B"))
        "liquidity" (.bool true)) "question" "question" = some (.str "Q") ∧
    fget (dset (marketMandatoryKwargs "1" "Q" "0x1" "mslug" (.str "A") (.str "B"))
        "liquidity" (.bool true)) "conditionId" "condition_id" = some (.str "0x1") ∧
    fget (dset (marketMandatoryKwargs "1" "Q" "0x1" "mslug" (.str "A") (.str "B"))
        "liquidity" (.bool true)) "slug" "slug" = some (.str "mslug") ∧
    fget (dset (marketMandatoryKwargs "1" "Q" "0x1" "mslug" (.str "A") (.str "B"))
        "liquidity" (.bool true)) "outcomes" "outcomes" = some (.str "A") ∧
    fget (dset (marketMandatoryKwargs "1" "Q" "0x1" "mslug" (.str "A") (.str "B"))
        "liquidity" (.bool true)) "clobTokenIds" "clob_token_ids" = some (.str "B") ∧
    mkMarket (dset (marketMandatoryKwargs "1" "Q" "0x1" "mslug" (.str "A") (.str "B"))
        "liquidity" (.bool true)) = .error ["liquidity: float expected"] :=
  ⟨rfl, rfl, rfl, rfl, rfl, rfl, rfl⟩

/-- **C8.** Market construction accepts either a single string or a sequence
of strings for each of `outcomes` and `clobTokenIds` without erroring: for
every `Union[List[str], str]` shape (covering both `"A"` and `["A","B"]`),
construction yields a `Market` whose union-typed fields hold that value. -/
theorem market_union_string_or_list_accepted (i q c s : String) (o cl : StrOrList) :
    ∃ m : Market, mkMarket (marketMandatoryKwargs i q c s o cl) = .ok m ∧
      m.outcomes = o ∧ m.clob_token_ids = cl :=
  ⟨_, mkMarket_mandatory_ok i q c s _ _ o cl
      (reqStrOrList_strOrListVal _ o) (reqStrOrList_strOrListVal _ cl), rfl, rfl⟩

/-! ## Unknown keys are ignored (C10) -/

/-- **C10.** For every embedded entity model (`Market`, `Tag`, `Event`,
`PublicSearchMarket`, `PublicSearchEvent`), construction from a mapping that
additionally contains a key matching neither a declared field name nor a
declared wire alias behaves exactly as without that key: the unknown key never
causes a validation failure and is not retained on the constructed object
(pydantic's default `extra="ignore"` on the shared `GammaBaseModel`). -/
theorem models_ignore_unknown_keys :
    (∀ k : String, k ∉ Market.wireKeys → ∀ (d : PDict) (v : PyVal),
      mkMarket (dset d k v) = mkMarket d) ∧
    (∀ k : String, k ∉ Tag.wireKeys →
      ∀ (dtp : PyVal → Option Int) (d : PDict) (v : PyVal),
      mkTag dtp (dset d k v) = mkTag dtp d) ∧
    (∀ k : String, k ∉ Event.wireKeys →
      ∀ (dtp : PyVal → Option Int) (d : PDict) (v : PyVal),
      mkEvent dtp (dset d k v) = mkEvent dtp d) ∧
    (∀ k : String, k ∉ PublicSearchMarket.wireKeys →
      ∀ (dtp : PyVal → Option Int) (d : PDict) (v : PyVal),
      mkPublicSearchMarket dtp (dset d k v) = mkPublicSearchMarket dtp d) ∧
    (∀ k : String, k ∉ PublicSearchEvent.wireKeys →
      ∀ (dtp : PyVal → Option Int) (d : PDict) (v : PyVal),
      mkPublicSearchEvent dtp (dset d k v) = mkPublicSearchEvent dtp d) :=
  ⟨fun _ hk d v => mkMarket_dset_unknown hk d v,
   fun _ hk dtp d v => mkTag_dset_unknown hk dtp d v,
   fun _ hk dtp d v => mkEvent_dset_unknown hk dtp d v,
   fun _ hk dtp d v => mkPublicSearchMarket_dset_unknown hk dtp d v,
   fun _ hk dtp d v => mkPublicSearchEvent_dset_unknown hk dtp d v⟩

/-- Witness for C10 at the concrete unknown key `"totallyUnknownKey"`. -/
theorem models_ignore_unknown_keys_witness :
    ("totallyUnknownKey" ∉ Market.wireKeys ∧
      mkMarket (dset [] "totallyUnknownKey" .null) = mkMarket []) ∧
    ("totallyUnknownKey" ∉ Tag.wireKeys ∧
      mkTag (fun _ => none) (dset [] "totallyUnknownKey" .null)
        = mkTag (fun _ => none) []) ∧
    ("totallyUnknownKey" ∉ Event.wireKeys ∧
      mkEvent (fun _ => none) (dset [] "totallyUnknownKey" .null)
        = mkEvent (fun _ => none) []) ∧
    ("totallyUnknownKey" ∉ PublicSearchMarket.wireKeys ∧
      mkPublicSearchMarket (fun _ => none) (dset [] "totallyUnknownKey" .null)
        = mkPublicSearchMarket (fun _ => none) []) ∧
    ("totallyUnknownKey" ∉ PublicSearchEvent.wireKeys ∧
      mkPublicSearchEvent (fun _ => none) (dset [] "totallyUnknownKey" .null)
        = mkPublicSearchEvent (fun _ => none) []) :=
  ⟨⟨by decide, models_ignore_unknown_keys.1 _ (by decide) _ _⟩,
   ⟨by decide, models_ignore_unknown_keys.2.1 _ (by decide) _ _ _⟩,
   ⟨by decide, models_ignore_unknown_keys.2.2.1 _ (by decide) _ _ _⟩,
   ⟨by decide, models_ignore_unknown_keys.2.2.2.1 _ (by decide) _ _ _⟩,
   ⟨by decide, models_ignore_unknown_keys.2.2.2.2 _ (by decide) _ _ _⟩⟩

/-! ## The `umaEndDate` normalizer gap (C2)

models.py line 157 declares `closed_time: FlexibleDatetime = Field(None,
alias="closedTime")` — the only field carrying the `parse_flexible_datetime`
`BeforeValidator` — while line 163 declares
`uma_end_date: Optional[datetime] = Field(None, alias="umaEndDate")` with no
pre-validation hook, although the repository's own tests
(`TestPublicSearchMarketWithMalformedDate` in tests/test_models.py) feed
malformed strings such as `"2023-04-01 12:00:00+00"` and `"AprilT1, 2023"`
through `umaEndDate` expecting them to be repaired and accepted. -/

/-- A strict base datetime parser accepting (here) exactly the fully repaired
ISO form of the repo test's timestamp — models a standard parser that rejects
the malformed `"2023-04-01 12:00:00+00"` the normalizer exists to repair
(spec §4.1). -/
def strictIsoDtp : PyVal → Option Int := fun v =>
  match v with
  | .str s => if s = "2023-04-01T12:00:00+00:00" then some 0 else none
  | _ => none

/-- The mandatory fields of the repo test's `PublicSearchMarket` fixture. -/
def psmTestBase : PDict :=
  [("id", .str "test-id"), ("question", .str "Test question?"),
   ("conditionId", .str "0x123"), ("slug", .str "test-slug")]

/-- **C2 (code bug).** The claim says `parse_flexible_datetime` runs as a
pre-validation hook on `umaEndDate` so that `"2023-04-01 12:00:00+00"` is
repaired and accepted.  In the code the hook is attached only to `closedTime`:
the normalizer would repair the test input (first conjunct), the `closedTime`
pipeline repairs-then-accepts it, but the `umaEndDate` pipeline hands the raw
string to the base parser unrepaired, so under a strict base parser the
repository's own test fixture is rejected. -/
theorem umaEndDate_not_normalized_code_bug :
    parse_flexible_datetime (.str "2023-04-01 12:00:00+00")
        = .str "2023-04-01T12:00:00+00:00" ∧
    flexDatetime strictIsoDtp "closedTime" (some (.str "2023-04-01 12:00:00+00"))
        = .ok (some 0) ∧
    optDatetime strictIsoDtp "umaEndDate" (some (.str "2023-04-01 12:00:00+00"))
        = .error ["umaEndDate: invalid datetime"] ∧
    (∃ m, mkPublicSearchMarket strictIsoDtp
        (dset psmTestBase "closedTime" (.str "2023-04-01 12:00:00+00")) = .ok m ∧
      m.closed_time = some 0 ∧ m.uma_end_date = none) ∧
    mkPublicSearchMarket strictIsoDtp
        (dset psmTestBase "umaEndDate" (.str "2023-04-01 12:00:00+00"))
        = .error ["umaEndDate: invalid datetime"] :=
  ⟨rfl, rfl, rfl, ⟨_, rfl, rfl, rfl⟩, rfl⟩

/-! ## `_request` (client.py lines 215–232; identical async variant lines 458–475) -/

/-- Modelled from the spec (§7): the library error taxonomy of
`exceptions.py`, which is imported by client.py but is not under `src/`.
`NotFoundError` and `ValidationError` are members of the library's taxonomy
(subclasses of the `GammaError` base that `_request`'s `except GammaError`
clause re-raises unmodified); `GammaAPIError` (spec name `APIError`) carries
an optional status code and optional raw response text. -/
inductive GammaErr where
  | notFoundError (msg : String) (statusCode : Nat)
  | gammaAPIError (msg : String) (statusCode : Option Nat) (responseText : Option String)
  | validationError (msg : String)

/-- Exceptions that can cross `_request`'s `try` block: `httpx.HTTPStatusError`
from `raise_for_status()`, a library `GammaError`, or any other exception
(transport failures, JSON decoding failures) described by its message. -/
inductive PyExc where
  | httpStatusError (statusCode : Nat) (text : String)
  | gamma (e : GammaErr)
  | other (desc : String)

/-- An `httpx` response as consumed by `_request`: status code, the
`Content-Type` header (`""` when absent), body text, and the result of
`response.json()` (which may itself raise). -/
structure HttpResponse where
  statusCode : Nat
  contentType : String
  text : String
  jsonBody : Except String PyVal

/-- The value `_request` returns to sub-clients. -/
inductive ReqValue where
  | json (v : PyVal)
  | text (s : String)

/-- Python `"application/json" in content_type`. -/
def hasJsonContentType (ct : String) : Bool :=
  decide ("application/json".toList <:+: ct.toList)

/-- The `try` block of `_request`: a transport failure raises; 404 raises
`NotFoundError`; `raise_for_status()` raises `HTTPStatusError` on any other
non-2xx status; a JSON content type decodes the body (a decode failure
raises); any other content type yields `text.strip('"')`. -/
def requestTryBody (endpoint : String) (transport : Except String HttpResponse) :
    Except PyExc ReqValue :=
  match transport with
  | .error e => .error (.other e)
  | .ok r =>
    if r.statusCode = 404 then
      .error (.gamma (.notFoundError ("Resource not found: " ++ endpoint) 404))
    else if ¬ (200 ≤ r.statusCode ∧ r.statusCode ≤ 299) then
      .error (.httpStatusError r.statusCode r.text)
    else if hasJsonContentType r.contentType then
      match r.jsonBody with
      | .ok v => .ok (.json v)
      | .error e => .error (.other e)
    else
      .ok (.text ⟨pyStripChar '"' r.text.data⟩)

/-- The `except` clauses of `_request`: `HTTPStatusError` becomes
`GammaAPIError` with status code and raw body text; a `GammaError` re-raises
unmodified; anything else is wrapped as `GammaAPIError` carrying the original
failure's description. -/
def requestExceptHandler : PyExc → GammaErr
  | .httpStatusError sc text => .gammaAPIError "API Error" (some sc) (some text)
  | .gamma e => e
  | .other d => .gammaAPIError ("Unexpected Error: " ++ d) none none

/-- `GammaClient._request` / `AsyncGammaClient._request`. -/
def gammaRequest (endpoint : String) (transport : Except String HttpResponse) :
    Except GammaErr ReqValue :=
  (requestTryBody endpoint transport).mapError requestExceptHandler

/-- **C5.** For every request: a 404 response raises `NotFoundError` carrying
status code 404; any other non-2xx status raises `GammaAPIError` carrying the
status code and the raw response body text; any other exception arising from
the transport call is wrapped into `GammaAPIError` carrying the original
failure's description; and every failure the caller sees is a member of the
library's taxonomy produced by the except-handler — no raw transport-layer
exception escapes. -/
theorem request_error_taxonomy (endpoint : String) :
    (∀ r : HttpResponse, r.statusCode = 404 →
      gammaRequest endpoint (.ok r)
        = .error (.notFoundError ("Resource not found: " ++ endpoint) 404)) ∧
    (∀ r : HttpResponse, r.statusCode ≠ 404 →
      ¬ (200 ≤ r.statusCode ∧ r.statusCode ≤ 299) →
      gammaRequest endpoint (.ok r)
        = .error (.gammaAPIError "API Error" (some r.statusCode) (some r.text))) ∧
    (∀ e : String, gammaRequest endpoint (.error e)
        = .error (.gammaAPIError ("Unexpected Error: " ++ e) none none)) ∧
    (∀ transport exc, gammaRequest endpoint transport = .error exc →
      ∃ p : PyExc, exc = requestExceptHandler p) := by
  refine ⟨?_, ?_, ?_, ?_⟩
  · intro r h
    simp [gammaRequest, requestTryBody, h, requestExceptHandler, Except.mapError]
  · intro r h1 h2
    simp [gammaRequest, requestTryBody, h1, h2, requestExceptHandler,
      Except.mapError]
  · intro e
    rfl
  · intro transport exc h
    cases ht : requestTryBody endpoint transport with
    | ok v => simp [gammaRequest, ht, Except.mapError] at h
    | error p =>
      refine ⟨p, ?_⟩
      simp [gammaRequest, ht, Except.mapError] at h
      exact h.symm

/-- Witness for C5: a 404, a 500 with body `boom`, and a transport timeout. -/
theorem request_error_taxonomy_witness :
    gammaRequest "/status" (.ok ⟨404, "application/json", "", .error "no body"⟩)
      = .error (.notFoundError "Resource not found: /status" 404) ∧
    ((500 : Nat) ≠ 404 ∧ ¬ ((200 : Nat) ≤ 500 ∧ (500 : Nat) ≤ 299) ∧
      gammaRequest "/status" (.ok ⟨500, "text/plain", "boom", .error "no body"⟩)
        = .error (.gammaAPIError "API Error" (some 500) (some "boom"))) ∧
    gammaRequest "/status" (.error "ConnectTimeout")
      = .error (.gammaAPIError "Unexpected Error: ConnectTimeout" none none) :=
  ⟨(request_error_taxonomy "/status").1 _ rfl,
   ⟨by decide, by decide,
     (request_error_taxonomy "/status").2.1 _ (by decide) (by decide)⟩,
   (request_error_taxonomy "/status").2.2.1 "ConnectTimeout"⟩

/-! ## Text responses and quote stripping (C9) -/

/-- The claim's reading of the stripping rule, from the spec's words: remove
exactly one pair of surrounding double quotes when both a leading and a
trailing double quote are present, otherwise return the text unchanged. -/
def stripOneSurroundingPair (s : String) : String :=
  if 2 ≤ s.data.length ∧ s.data.head? = some '"' ∧ s.data.getLast? = some '"'
  then ⟨(s.data.drop 1).dropLast⟩ else s

/-- **C9 counterexample.** On the 2xx non-JSON body `""ok""` the code returns
`ok` — Python `str.strip('"')` removes every leading and trailing quote — but
stripping exactly one surrounding pair, as the claim states, yields `"ok"`. -/
theorem request_text_strip_counterexample :
    gammaRequest "/status"
        (.ok ⟨200, "text/plain", "\"\"ok\"\"", .error "not json"⟩)
      = .ok (.text "ok") ∧
    stripOneSurroundingPair "\"\"ok\"\"" = "\"ok\"" ∧
    ("ok" : String) ≠ "\"ok\"" :=
  ⟨rfl, by decide, by decide⟩

/-- **C9 (amended).** For every 2xx response whose Content-Type does not
contain `"application/json"`, the returned value is the raw body text with
ALL leading and ALL trailing double-quote characters removed (Python
`str.strip('"')` semantics): multiple surrounding quotes are all stripped,
and an unpaired leading or trailing quote is removed as well. -/
theorem request_text_strips_all_surrounding_quotes (endpoint : String)
    (r : HttpResponse) (h2 : 200 ≤ r.statusCode ∧ r.statusCode ≤ 299)
    (hct : hasJsonContentType r.contentType = false) :
    gammaRequest endpoint (.ok r) = .ok (.text ⟨pyStripChar '"' r.text.data⟩) := by
  have h404 : ¬ (r.statusCode = 404) := by omega
  simp [gammaRequest, requestTryBody, h404, h2, hct, Except.mapError]

/-- Witness for C9's amended claim, on the asymmetric body `""abc"`. -/
theorem request_text_strips_all_surrounding_quotes_witness :
    ((200 : Nat) ≤ 200 ∧ (200 : Nat) ≤ 299) ∧
    hasJsonContentType "text/plain" = false ∧
    gammaRequest "/status" (.ok ⟨200, "text/plain", "\"\"abc\"", .error "nj"⟩)
      = .ok (.text "abc") :=
  ⟨⟨by decide, by decide⟩, by decide,
    request_text_strips_all_surrounding_quotes "/status"
      ⟨200, "text/plain", "\"\"abc\"", .error "nj"⟩
      ⟨by decide, by decide⟩ (by decide)⟩

/-! ## URL resolution (client.py lines 275–305; identical async variant 489–519) -/

theorem pySplitChar_ne_nil (c : Char) (l : List Char) : pySplitChar c l ≠ [] := by
  cases l with
  | nil => simp [pySplitChar]
  | cons x xs =>
    cases h : pySplitChar c xs with
    | nil => simp [pySplitChar, h]
    | cons y ys =>
      simp only [pySplitChar, h]
      split <;> simp

theorem dropWhile_head?_false {p : Char → Bool} {l : List Char} {a : Char}
    (h : (l.dropWhile p).head? = some a) : p a = false := by
  induction l with
  | nil => simp at h
  | cons x xs ih =>
    by_cases hx : p x = true
    · rw [List.dropWhile_cons, if_pos hx] at h
      exact ih h
    · rw [List.dropWhile_cons, if_neg hx] at h
      simp only [List.head?_cons, Option.some.injEq] at h
      subst h
      exact Bool.not_eq_true _ ▸ hx

/-- After `strip("/")` the string cannot end with `'/'`. -/
theorem pyStripChar_getLast_ne (c : Char) (l : List Char) :
    (pyStripChar c l).getLast? ≠ some c := by
  intro h
  unfold pyStripChar at h
  rw [List.getLast?_reverse] at h
  have := dropWhile_head?_false h
  simp at this

/-- The last segment of splitting a string that does not end with the
separator is nonempty. -/
theorem pySplitChar_getLast_ne_nil {c : Char} {l : List Char} (hl : l ≠ [])
    (hlast : l.getLast? ≠ some c) : (pySplitChar c l).getLast? ≠ some [] := by
  induction l with
  | nil => exact absurd rfl hl
  | cons x xs ih =>
    cases xs with
    | nil =>
      have hx : ¬ (x = c) := fun e => hlast (by simp [e])
      simp [pySplitChar, hx]
    | cons y ys =>
      have hlast' : (y :: ys).getLast? ≠ some c := by
        rwa [List.getLast?_cons_cons] at hlast
      have ih' := ih (by simp) hlast'
      cases h : pySplitChar c (y :: ys) with
      | nil => exact absurd h (pySplitChar_ne_nil c _)
      | cons z zs =>
        rw [h] at ih'
        have hsplit : pySplitChar c (x :: y :: ys)
            = if x = c then [] :: z :: zs else (x :: z) :: zs := by
          show (match pySplitChar c (y :: ys) with
            | [] => [[]]
            | w :: ws => if x = c then [] :: w :: ws else (x :: w) :: ws) = _
          rw [h]
        by_cases hx : x = c
        · rw [hsplit, if_pos hx, List.getLast?_cons_cons]
          exact ih'
        · rw [hsplit, if_neg hx]
          cases zs with
          | nil => simp
          | cons w ws =>
            rw [List.getLast?_cons_cons]
            rwa [List.getLast?_cons_cons] at ih'

/-- `GammaClient._extract_slug_from_url` (client.py lines 297–305) applied to
the URL's parsed path (`urlparse(url).path`): strip surrounding slashes, split
on `"/"`, and return the last segment when there are at least two segments and
the first is literally `"market"` or `"event"`; otherwise `None`. -/
def extractSlugFromPath (path : String) : Option (List Char) :=
  let pathParts := pySplitChar '/' (pyStripChar '/' path.data)
  if 2 ≤ pathParts.length ∧
      (pathParts.head? = some "market".toList ∨ pathParts.head? = some "event".toList)
  then pathParts.getLast?
  else none

/-- `GammaClient.resolve_url` (client.py lines 275–295) over abstract
market/event lookups by slug (each may fail with any exception): no slug (or
a falsy empty slug) raises `ValidationError`; otherwise market lookup is
attempted first, on any failure event lookup, on any failure `None` — the
`try/except Exception` blocks swallow every lookup failure. -/
def resolveUrl {M E : Type} (marketLookup : List Char → Except PyExc (Option M))
    (eventLookup : List Char → Except PyExc E) (path : String) :
    Except GammaErr (Option (Sum M E)) :=
  match extractSlugFromPath path with
  | none => .error (.validationError "Invalid Polymarket URL")
  | some slug =>
    if slug = [] then .error (.validationError "Invalid Polymarket URL")
    else
      match marketLookup slug with
      | .ok m => .ok (m.map Sum.inl)
      | .error _ =>
        match eventLookup slug with
        | .ok e => .ok (some (Sum.inr e))
        | .error _ => .ok none

/-- **C3.** If the URL's path, stripped of surrounding slashes and split on
`"/"`, has fewer than two segments or a first segment that is neither
`"market"` nor `"event"`, `resolve_url` raises `ValidationError` — for every
possible lookup behavior, hence before any network request.  Otherwise the
last path segment is the slug, market lookup is attempted first, on any
failure of it event lookup is attempted, on any failure of that the call
returns `None` — and once a slug is extracted the call never raises. -/
theorem resolve_url_behavior {M E : Type}
    (marketLookup : List Char → Except PyExc (Option M))
    (eventLookup : List Char → Except PyExc E) (path : String) :
    ((pySplitChar '/' (pyStripChar '/' path.data)).length < 2 ∨
      ((pySplitChar '/' (pyStripChar '/' path.data)).head? ≠ some "market".toList ∧
       (pySplitChar '/' (pyStripChar '/' path.data)).head? ≠ some "event".toList) →
      resolveUrl marketLookup eventLookup path
        = .error (.validationError "Invalid Polymarket URL")) ∧
    (2 ≤ (pySplitChar '/' (pyStripChar '/' path.data)).length →
      ((pySplitChar '/' (pyStripChar '/' path.data)).head? = some "market".toList ∨
       (pySplitChar '/' (pyStripChar '/' path.data)).head? = some "event".toList) →
      ∃ slug, extractSlugFromPath path = some slug ∧
        (pySplitChar '/' (pyStripChar '/' path.data)).getLast? = some slug ∧
        slug ≠ [] ∧
        (∀ m, marketLookup slug = .ok m →
          resolveUrl marketLookup eventLookup path = .ok (m.map Sum.inl)) ∧
        (∀ p1, marketLookup slug = .error p1 →
          (∀ e, eventLookup slug = .ok e →
            resolveUrl marketLookup eventLookup path = .ok (some (Sum.inr e))) ∧
          (∀ p2, eventLookup slug = .error p2 →
            resolveUrl marketLookup eventLookup path = .ok none)) ∧
        (∃ v, resolveUrl marketLookup eventLookup path = .ok v)) := by
  constructor
  · intro h
    have hnone : extractSlugFromPath path = none := by
      unfold extractSlugFromPath
      rcases h with h | h
      · rw [if_neg]
        rintro ⟨h2, _⟩
        omega
      · rw [if_neg]
        rintro ⟨h2, h3 | h3⟩
        · exact h.1 h3
        · exact h.2 h3
    simp [resolveUrl, hnone]
  · intro h2 hhead
    have hstr : pyStripChar '/' path.data ≠ [] := by
      intro he
      rw [he] at h2
      simp [pySplitChar] at h2
    have hlastc : (pyStripChar '/' path.data).getLast? ≠ some '/' :=
      pyStripChar_getLast_ne _ _
    have hslugne : (pySplitChar '/' (pyStripChar '/' path.data)).getLast? ≠ some [] :=
      pySplitChar_getLast_ne_nil hstr hlastc
    obtain ⟨slug, hslug⟩ : ∃ s, (pySplitChar '/' (pyStripChar '/' path.data)).getLast? = some s := by
      cases hp : (pySplitChar '/' (pyStripChar '/' path.data)).getLast? with
      | none =>
        exact absurd (List.getLast?_eq_none_iff.mp hp) (pySplitChar_ne_nil _ _)
      | some s => exact ⟨s, rfl⟩
    have hslugne' : slug ≠ [] := fun e => hslugne (e ▸ hslug)
    have hex : extractSlugFromPath path = some slug := by
      unfold extractSlugFromPath
      rw [if_pos ⟨h2, hhead⟩, hslug]
    refine ⟨slug, hex, hslug, hslugne', ?_, ?_, ?_⟩
    · intro m hm
      simp [resolveUrl, hex, hslugne', hm]
    · intro p1 hp1
      constructor
      · intro e he
        simp [resolveUrl, hex, hslugne', hp1, he]
      · intro p2 hp2
        simp [resolveUrl, hex, hslugne', hp1, hp2]
    · cases hm : marketLookup slug with
      | ok m => exact ⟨m.map Sum.inl, by simp [resolveUrl, hex, hslugne', hm]⟩
      | error p1 =>
        cases he : eventLookup slug with
        | ok e => exact ⟨some (Sum.inr e), by simp [resolveUrl, hex, hslugne', hm, he]⟩
        | error p2 => exact ⟨none, by simp [resolveUrl, hex, hslugne', hm, he]⟩

/-- Witness for C3: `"/market/foo-bar"` extracts `"foo-bar"` and resolves via
the market lookup; `"/foo"` fails with a validation error. -/
theorem resolve_url_behavior_witness :
    (2 ≤ (pySplitChar '/' (pyStripChar '/' ("/market/foo-bar" : String).data)).length ∧
      (pySplitChar '/' (pyStripChar '/' ("/market/foo-bar" : String).data)).head?
        = some "market".toList ∧
      extractSlugFromPath "/market/foo-bar" = some "foo-bar".toList ∧
      @resolveUrl Nat Nat (fun _ => .ok (some 0)) (fun _ => .ok 0) "/market/foo-bar"
        = .ok (some (Sum.inl 0))) ∧
    ((pySplitChar '/' (pyStripChar '/' ("/foo" : String).data)).length < 2 ∧
      @resolveUrl Nat Nat (fun _ => .ok (some 0)) (fun _ => .ok 0) "/foo"
        = .error (.validationError "Invalid Polymarket URL")) := by
  refine ⟨⟨by decide, by decide, by decide, ?_⟩, ⟨by decide, ?_⟩⟩
  · obtain ⟨slug, hex, hlast, hne, hmk, hfall, hok⟩ :=
      (@resolve_url_behavior Nat Nat (fun _ => .ok (some 0)) (fun _ => .ok 0)
        "/market/foo-bar").2 (by decide) (Or.inl (by decide))
    have hc : extractSlugFromPath "/market/foo-bar" = some "foo-bar".toList := by decide
    rw [hex] at hc
    have hs := Option.some.inj hc
    subst hs
    exact hmk (some 0) rfl
  · exact (resolve_url_behavior (fun _ => .ok (some 0)) (fun _ => .ok 0) "/foo").1
      (Or.inl (by decide))

/-! ## Market lookup by slug (client.py lines 142–147; async 393–397) -/

/-- Failures of `Market(**data)` on an arbitrary decoded value: a non-mapping
raises `TypeError`, a mapping can fail validation. -/
inductive PyFailure where
  | typeError (msg : String)
  | validation (errs : List String)

/-- `Market(**data)` for a decoded JSON value. -/
def marketFromKwargs : PyVal → Except PyFailure Market
  | .obj kvs => (mkMarket kvs).mapError .validation
  | _ => .error (.typeError "Market(**data): mapping expected")

/-- `MarketsClient.get_by_slug` / `AsyncMarketsClient.get_by_slug` after the
transport call: a list body yields the Market of its first element, or `None`
when empty; any other body is treated as a single object. -/
def marketsGetBySlug (body : PyVal) : Except PyFailure (Option Market) :=
  match body with
  | .list [] => .ok none
  | .list (x :: _) => (marketFromKwargs x).map some
  | v => (marketFromKwargs v).map some

/-- **C4.** For every successful market lookup-by-slug: a single-object body
yields the Market constructed from it; a one-element array body yields the
Market constructed from that element — the same entity as the single-object
case; an empty-array body yields `None`. -/
theorem markets_get_by_slug_shapes (kvs : PDict) (m : Market)
    (hm : mkMarket kvs = .ok m) :
    marketsGetBySlug (.obj kvs) = .ok (some m) ∧
    marketsGetBySlug (.list [.obj kvs]) = .ok (some m) ∧
    marketsGetBySlug (.list []) = .ok none := by
  refine ⟨?_, ?_, rfl⟩ <;>
    simp [marketsGetBySlug, marketFromKwargs, hm, Except.map, Except.mapError]

/-- The Market built from the six mandatory fields with scalar union values. -/
def demoMarket : Market :=
  ⟨"1", "Q", "0x1", "mslug", none, none, none, none, none, none, none,
    .str "A", .str "B", none, none, none, none, none, none, none, none, none,
    true, false, false, false, none⟩

/-- Witness for C4 on a concrete market object. -/
theorem markets_get_by_slug_shapes_witness :
    mkMarket (marketMandatoryKwargs "1" "Q" "0x1" "mslug" (.str "A") (.str "B"))
      = .ok demoMarket ∧
    marketsGetBySlug (.obj (marketMandatoryKwargs "1" "Q" "0x1" "mslug"
      (.str "A") (.str "B"))) = .ok (some demoMarket) ∧
    marketsGetBySlug (.list [.obj (marketMandatoryKwargs "1" "Q" "0x1" "mslug"
      (.str "A") (.str "B"))]) = .ok (some demoMarket) ∧
    marketsGetBySlug (.list []) = .ok none := by
  have hm : mkMarket (marketMandatoryKwargs "1" "Q" "0x1" "mslug"
      (.str "A") (.str "B")) = .ok demoMarket := rfl
  have h := markets_get_by_slug_shapes _ _ hm
  exact ⟨hm, h.1, h.2.1, h.2.2⟩

end PyGammaSdk
